import Mathlib

/-!
Verification of the ShadowMe adaptive recommendation engine.

The development shallowly embeds the four engine components:
the cognitive-load estimator (backend/src/services/cognitiveLoad.js),
the decision scorer and card assembler (decision engine service),
the CSP learning updater (CSP learning service), and the feedback
route counter helper (backend/src/routes/feedback.js).

Conventions of the embedding:
- JavaScript numbers are modelled as exact rationals (ℚ); integer-valued
  results (Math.round, counters) are ℤ / ℕ.
- `Math.round` rounds half toward positive infinity: `jround q = ⌊q + 1/2⌋`.
- A JSON field that may be absent is modelled as `Option` when its absence
  is tested, or as a value with the JS `x || default` read modelled by
  `jsOr` (note `jsOr` treats 0 as absent, exactly like the JS `||` on numbers).
- Asynchronous store reads/writes are modelled as `Except String` inputs:
  `.error` is a rejected promise (a thrown store error), `.ok` is resolved data.
- Local clock reads (`new Date().getHours()`, day of week, timestamps) are
  lifted to explicit parameters.
-/

/-- JavaScript `Math.round` on an exact rational: round half up. -/
def jround (q : ℚ) : ℤ := (q + 1/2).floor

/-- The JS read pattern `value || default` on a numeric field: 0 (and an
absent field, which this embedding stores as 0) falls back to the default. -/
def jsOr (v d : ℚ) : ℚ := if v = 0 then d else v

/-- The JS read pattern `value || default` on an optional numeric field
(absent or 0 falls back to the default). -/
def jsOrN (o : Option ℕ) (d : ℕ) : ℕ :=
  match o with
  | some n => if n = 0 then d else n
  | none => d

/-- The JS read pattern `value || default` where the value is an optional
count of minutes and the default is rational. -/
def jsOrNQ (o : Option ℕ) (d : ℚ) : ℚ :=
  match o with
  | some n => if n = 0 then d else (n : ℚ)
  | none => d

/-- JS string truthiness for an optional string field: null/undefined and
the empty string are falsy. -/
def jsTruthyStr (o : Option String) : Bool :=
  match o with
  | some s => s != ""
  | none => false

/-- JS `String.prototype.includes`: substring containment. -/
def strIncludes (s sub : String) : Bool := decide (sub.data <:+: s.data)

namespace CognitiveLoad

/-- A row of the `feedback` table as read by the estimator (only the
`action` column is selected). -/
structure FeedbackRow where
  action : String

/-- A row of the `interaction_events` table as read by the estimator;
`total_duration_ms` models `metadata?.total_duration_ms` (absent → `none`). -/
structure EventRow where
  total_duration_ms : Option ℕ

/-- The `breakdown` object: per-factor values plus the informational
count/rate/minutes/hour fields the service records alongside them. -/
structure Breakdown where
  decisions_value : ℤ
  decisions_count : ℕ
  overrides_value : ℤ
  overrides_rate : ℤ
  timeOnSite_value : ℤ
  timeOnSite_minutes : ℤ
  timeOfDay_value : ℤ
  timeOfDay_hour : ℕ

/-- The breakdown as initialized at the top of `calculateCognitiveLoad`. -/
def initBreakdown (hour : ℕ) : Breakdown :=
  { decisions_value := 0, decisions_count := 0, overrides_value := 0,
    overrides_rate := 0, timeOnSite_value := 0, timeOnSite_minutes := 0,
    timeOfDay_value := 0, timeOfDay_hour := hour }

/-- Factor 1: `Math.min(30, Math.round((decisionCount / 10) * 30))`. -/
def decisionsValue (count : ℕ) : ℤ := min 30 (jround ((count : ℚ) / 10 * 30))

/-- Factor 2: only when `decisionCount > 0`;
`Math.min(25, Math.round((overrideRate / 0.5) * 25))`. -/
def overridesValue (overrides count : ℕ) : ℤ :=
  if 0 < count then min 25 (jround ((overrides : ℚ) / (count : ℚ) / (1/2) * 25)) else 0

/-- Model of `Math.round(totalTimeMs / 60000)`. -/
def totalMinutesOf (ms : ℕ) : ℤ := jround ((ms : ℚ) / 60000)

/-- Factor 3: `Math.min(20, Math.round(Math.max(0, (totalMinutes - 15) / 45) * 20))`. -/
def timeOnSiteValue (minutes : ℤ) : ℤ :=
  min 20 (jround (max 0 (((minutes : ℚ) - 15) / 45) * 20))

/-- Factor 4: the piecewise time-of-day contribution by hour band. -/
def timeOfDayValue (hour : ℕ) : ℤ :=
  if 6 ≤ hour ∧ hour < 12 then
    jround (((hour : ℚ) - 6) / 6 * 5)
  else if 12 ≤ hour ∧ hour < 17 then
    10 + jround (((hour : ℚ) - 12) / 5 * 5)
  else if 17 ≤ hour ∧ hour < 21 then
    15 + jround (((hour : ℚ) - 17) / 4 * 5)
  else
    20 + min 5 (if 21 ≤ hour then (hour : ℤ) - 21 else 5)

/-- The tier chain at the end of `calculateCognitiveLoad`. -/
def autonomyLevelOf (score : ℤ) : String :=
  if score ≤ 33 then "manual" else if score ≤ 66 then "assist" else "auto"

/-- Result of the estimator (`calculatedAt` and the `error` message are
timestamps/diagnostics and are omitted). -/
structure CognitiveLoadResult where
  score : ℤ
  autonomyLevel : String
  breakdown : Breakdown

/-- The safe default returned by the catch block, with whatever part of the
breakdown had been filled in before the failure. -/
def defaultResult (b : Breakdown) : CognitiveLoadResult :=
  { score := 50, autonomyLevel := "assist", breakdown := b }

/-- Model of `calculateCognitiveLoad(userId)`: the two store reads are passed in as
`Except` values (`.error` = the awaited promise rejected, caught by the
service's catch block), the current hour as a parameter. -/
def calculateCognitiveLoad (feedbackFetch : Except String (List FeedbackRow))
    (eventsFetch : Except String (List EventRow)) (hour : ℕ) : CognitiveLoadResult :=
  let b0 := initBreakdown hour
  match feedbackFetch with
  | .error _ => defaultResult b0
  | .ok feedbackToday =>
    let decisionCount := feedbackToday.length
    let b1 := { b0 with decisions_count := decisionCount,
                        decisions_value := decisionsValue decisionCount }
    let b2 :=
      if 0 < decisionCount then
        let overrideCount := (feedbackToday.filter (fun f => f.action == "override")).length
        { b1 with overrides_rate := jround ((overrideCount : ℚ) / (decisionCount : ℚ) * 100),
                  overrides_value := overridesValue overrideCount decisionCount }
      else b1
    match eventsFetch with
    | .error _ => defaultResult b2
    | .ok events =>
      let totalTimeMs := events.foldl (fun sum e => sum + e.total_duration_ms.getD 0) 0
      let minutes := totalMinutesOf totalTimeMs
      let b3 := { b2 with timeOnSite_minutes := minutes,
                          timeOnSite_value := timeOnSiteValue minutes }
      let b4 := { b3 with timeOfDay_value := timeOfDayValue hour }
      let score := min 100 (b4.decisions_value + b4.overrides_value +
                            b4.timeOnSite_value + b4.timeOfDay_value)
      { score := score, autonomyLevel := autonomyLevelOf score, breakdown := b4 }

/-- Tier thresholds exactly as the spec words them (section 4.1):
`score ≤ 33 → manual`, `34..66 → assist`, `≥ 67 → auto`. Stated separately
from `autonomyLevelOf` (which is translated from the code) so that the two
can be compared. -/
def tierSpec (score : ℤ) : String :=
  if score ≤ 33 then "manual"
  else if 34 ≤ score ∧ score ≤ 66 then "assist"
  else "auto"

end CognitiveLoad

/-- An entry of the `preferred_alternatives` rolling list pushed by
`applyOverrideLearning`. -/
structure PreferredAlternative where
  original : Option String
  chosen : String
  time : ℕ
  cognitive_load : Option ℚ

/-- The Cognitive Shadow Profile vector (the `csp_vector` JSON document).
It is the union of the fields the engine and the learning service read or
write. A field that is absent in the stored JSON is modelled as 0 / [] /
false / none; every numeric read in the code goes through the JS `||`
default, modelled by `jsOr`, which maps 0 to the default exactly as JS maps
both 0 and undefined. -/
structure Csp where
  morning_task_weight : ℚ
  afternoon_task_weight : ℚ
  evening_task_weight : ℚ
  high_effort_preference : ℚ
  low_effort_preference : ℚ
  break_frequency_weight : ℚ
  focus_duration_preference : ℚ
  suggestion_confidence : ℚ
  high_load_override_tendency : ℚ
  accept_rate : ℚ
  override_rate : ℚ
  ignore_rate : ℚ
  total_decisions : ℕ
  total_accepts : ℕ
  total_overrides : ℕ
  total_ignores : ℕ
  consecutive_accepts : ℕ
  consecutive_overrides : ℕ
  consecutive_ignores : ℕ
  preferred_alternatives : List PreferredAlternative
  needs_recalibration : Bool
  last_learned_at : Option String

namespace CspLearning

/-- The learning rate constant `LEARNING_RATE = 0.1`. -/
def LEARNING_RATE : ℚ := 1/10

/-- Model of `clamp(value, min = 0, max = 1)`; every call site uses the defaults. -/
def clamp (value : ℚ) : ℚ := max 0 (min 1 value)

/-- Model of `getDefaultCsp()` of the CSP learning service. Fields the JS object does
not carry (`high_load_override_tendency`, `preferred_alternatives`,
`needs_recalibration`) are absent and therefore 0 / [] / false here. -/
def getDefaultCsp : Csp where
  morning_task_weight := 1/2
  afternoon_task_weight := 1/2
  evening_task_weight := 3/10
  high_effort_preference := 1/2
  low_effort_preference := 1/2
  break_frequency_weight := 1/2
  focus_duration_preference := 50
  suggestion_confidence := 1/2
  high_load_override_tendency := 0
  accept_rate := 0
  override_rate := 0
  ignore_rate := 0
  total_decisions := 0
  total_accepts := 0
  total_overrides := 0
  total_ignores := 0
  consecutive_accepts := 0
  consecutive_overrides := 0
  consecutive_ignores := 0
  preferred_alternatives := []
  needs_recalibration := false
  last_learned_at := none

/-- The `context` object passed with a feedback action. `card_items` may
contain null entries (the JS code guards with `item?.`). -/
structure FeedbackContext where
  card_items : Option (List (Option String))
  cognitive_load : Option ℚ
  chosen_alternative : Option String
  original_items : Option String

/-- Model of `context.card_items?.some(item => item?.includes('Focus') || item?.includes('Deep'))`. -/
def hasEffortSignal (context : FeedbackContext) : Bool :=
  match context.card_items with
  | none => false
  | some items => items.any fun it =>
      match it with
      | none => false
      | some s => strIncludes s "Focus" || strIncludes s "Deep"

/-- The accept-path time-band mutation: increase the weight of the current
hour band by the learning rate, clamped. -/
def acceptBand (csp0 : Csp) (hour : ℕ) : Csp :=
  if 6 ≤ hour ∧ hour < 12 then
    { csp0 with morning_task_weight := clamp (jsOr csp0.morning_task_weight (1/2) + LEARNING_RATE) }
  else if 12 ≤ hour ∧ hour < 17 then
    { csp0 with afternoon_task_weight := clamp (jsOr csp0.afternoon_task_weight (1/2) + LEARNING_RATE) }
  else
    { csp0 with evening_task_weight := clamp (jsOr csp0.evening_task_weight (3/10) + LEARNING_RATE) }

/-- The accept-path effort mutation: if the accepted card items signal high
effort, increase `high_effort_preference` by half the learning rate. -/
def acceptEffort (csp : Csp) (context : FeedbackContext) : Csp :=
  if hasEffortSignal context then
    { csp with high_effort_preference := clamp (jsOr csp.high_effort_preference (1/2) + LEARNING_RATE * (1/2)) }
  else csp

/-- The accept-path streak mutation: bump `consecutive_accepts`, reset
`consecutive_overrides`. -/
def acceptStreak (csp : Csp) : Csp :=
  { csp with consecutive_accepts := csp.consecutive_accepts + 1,
             consecutive_overrides := 0 }

/-- The accept-path confidence mutation: three or more consecutive accepts
raise `suggestion_confidence` by the learning rate. -/
def acceptConfidence (csp : Csp) : Csp :=
  if 3 ≤ csp.consecutive_accepts then
    { csp with suggestion_confidence := clamp (jsOr csp.suggestion_confidence (1/2) + LEARNING_RATE) }
  else csp

/-- Model of `applyAcceptLearning(csp, context)` (hour lifted to a parameter): the
four mutation statements of the JS function applied in source order. -/
def applyAcceptLearning (csp0 : Csp) (context : FeedbackContext) (hour : ℕ) : Csp :=
  acceptConfidence (acceptStreak (acceptEffort (acceptBand csp0 hour) context))

/-- Model of `context.cognitive_load > 66` under JS comparison semantics: comparing
undefined is false. -/
def highLoadAtOverride (context : FeedbackContext) : Bool :=
  match context.cognitive_load with
  | some cl => decide (66 < cl)
  | none => false

/-- The override-path time-band mutation: decrease the weight of the current
hour band by the learning rate, clamped. -/
def overrideBand (csp0 : Csp) (hour : ℕ) : Csp :=
  if 6 ≤ hour ∧ hour < 12 then
    { csp0 with morning_task_weight := clamp (jsOr csp0.morning_task_weight (1/2) - LEARNING_RATE) }
  else if 12 ≤ hour ∧ hour < 17 then
    { csp0 with afternoon_task_weight := clamp (jsOr csp0.afternoon_task_weight (1/2) - LEARNING_RATE) }
  else
    { csp0 with evening_task_weight := clamp (jsOr csp0.evening_task_weight (3/10) - LEARNING_RATE) }

/-- The override-path high-load mutation: an override under cognitive load
above 66 raises `high_load_override_tendency`. -/
def overrideHighLoad (csp : Csp) (context : FeedbackContext) : Csp :=
  if highLoadAtOverride context then
    { csp with high_load_override_tendency := clamp (jsOr csp.high_load_override_tendency (1/2) + LEARNING_RATE) }
  else csp

/-- The override-path streak mutation: bump `consecutive_overrides`, reset
`consecutive_accepts`. -/
def overrideStreak (csp : Csp) : Csp :=
  { csp with consecutive_overrides := csp.consecutive_overrides + 1,
             consecutive_accepts := 0 }

/-- The override-path confidence mutation: three or more consecutive
overrides lower `suggestion_confidence` by the learning rate. -/
def overrideConfidence (csp : Csp) : Csp :=
  if 3 ≤ csp.consecutive_overrides then
    { csp with suggestion_confidence := clamp (jsOr csp.suggestion_confidence (1/2) - LEARNING_RATE) }
  else csp

/-- The override-path alternative mutation: a truthy `chosen_alternative` is
appended to `preferred_alternatives`; `slice(-20)` keeps only the last 20
entries (the oldest entries are dropped from the front). -/
def overrideAlternative (csp : Csp) (context : FeedbackContext) (hour : ℕ) : Csp :=
  match context.chosen_alternative with
  | some alt =>
      if alt ≠ "" then
        let l := csp.preferred_alternatives ++
          [{ original := context.original_items, chosen := alt, time := hour,
             cognitive_load := context.cognitive_load }]
        { csp with preferred_alternatives := if 20 < l.length then l.drop (l.length - 20) else l }
      else csp
  | none => csp

/-- Model of `applyOverrideLearning(csp, context)` (hour lifted to a parameter): the
five mutation statements of the JS function applied in source order. -/
def applyOverrideLearning (csp0 : Csp) (context : FeedbackContext) (hour : ℕ) : Csp :=
  overrideAlternative
    (overrideConfidence (overrideStreak (overrideHighLoad (overrideBand csp0 hour) context)))
    context hour

/-- The ignore-path time-band mutation: decrease the weight of the current
hour band by `LEARNING_RATE * 0.3`, clamped. -/
def ignoreBand (csp0 : Csp) (hour : ℕ) : Csp :=
  if 6 ≤ hour ∧ hour < 12 then
    { csp0 with morning_task_weight := clamp (jsOr csp0.morning_task_weight (1/2) - LEARNING_RATE * (3/10)) }
  else if 12 ≤ hour ∧ hour < 17 then
    { csp0 with afternoon_task_weight := clamp (jsOr csp0.afternoon_task_weight (1/2) - LEARNING_RATE * (3/10)) }
  else
    { csp0 with evening_task_weight := clamp (jsOr csp0.evening_task_weight (3/10) - LEARNING_RATE * (3/10)) }

/-- The ignore-path streak mutation: bump `consecutive_ignores`. -/
def ignoreStreak (csp : Csp) : Csp :=
  { csp with consecutive_ignores := csp.consecutive_ignores + 1 }

/-- The ignore-path recalibration mutation: five or more consecutive ignores
set the `needs_recalibration` flag. -/
def ignoreRecalibration (csp : Csp) : Csp :=
  if 5 ≤ csp.consecutive_ignores then
    { csp with needs_recalibration := true }
  else csp

/-- Model of `applyIgnoreLearning(csp, context)` (hour lifted to a parameter): the
three mutation statements of the JS function applied in source order. -/
def applyIgnoreLearning (csp0 : Csp) (context : FeedbackContext) (hour : ℕ) : Csp :=
  ignoreRecalibration (ignoreStreak (ignoreBand csp0 hour))

/-- The first mutation of `updateCspFromFeedback`: bump `total_decisions`. -/
def incrementTotal (csp : Csp) : Csp :=
  { csp with total_decisions := csp.total_decisions + 1 }

/-- The action dispatch of `updateCspFromFeedback`: bump the action-specific
counter and run the matching learning step; an unknown action falls through
with no learning step, exactly as the if/else chain does. -/
def dispatchLearning (csp : Csp) (action : String) (context : FeedbackContext)
    (hour : ℕ) : Csp :=
  if action = "accept" then
    applyAcceptLearning { csp with total_accepts := csp.total_accepts + 1 } context hour
  else if action = "override" then
    applyOverrideLearning { csp with total_overrides := csp.total_overrides + 1 } context hour
  else if action = "ignore" then
    applyIgnoreLearning { csp with total_ignores := csp.total_ignores + 1 } context hour
  else csp

/-- The rate recomputation of `updateCspFromFeedback`: guarded by
`total_decisions > 0`. -/
def updateRates (csp : Csp) : Csp :=
  if 0 < csp.total_decisions then
    { csp with accept_rate := (csp.total_accepts : ℚ) / (csp.total_decisions : ℚ),
               override_rate := (csp.total_overrides : ℚ) / (csp.total_decisions : ℚ),
               ignore_rate := (csp.total_ignores : ℚ) / (csp.total_decisions : ℚ) }
  else csp

/-- The in-memory CSP mutation performed by `updateCspFromFeedback` between
the profile fetch and the profile write: counter increment, action-specific
learning step, rate recomputation, and the learned-at timestamp (`now` is
the wall-clock ISO string). -/
def updateCspPure (csp0 : Csp) (action : String) (context : FeedbackContext)
    (hour : ℕ) (now : String) : Csp :=
  { updateRates (dispatchLearning (incrementTotal csp0) action context hour) with
    last_learned_at := some now }

/-- Model of `updateCspFromFeedback(userId, action, context)`: the profile fetch and
the profile write are `Except` inputs. Every failure path of the JS function
logs and returns undefined (`none`); the surrounding try/catch swallows any
thrown store error, so the function never propagates a failure. -/
def updateCspFromFeedback (fetchRes : Except String (Option (Option Csp)))
    (action : String) (context : FeedbackContext) (hour : ℕ) (now : String)
    (writeRes : Except String Unit) : Option Csp :=
  match fetchRes with
  | .error _ => none
  | .ok none => none
  | .ok (some cspOpt) =>
      let csp := cspOpt.getD getDefaultCsp
      let updated := updateCspPure csp action context hour now
      match writeRes with
      | .error _ => none
      | .ok _ => some updated

/-- One feedback submission as seen by the updater: the action string plus
the context and the wall-clock values of that call. -/
structure FeedbackEv where
  action : String
  context : FeedbackContext
  hour : ℕ
  now : String

/-- A sequence of feedback submissions applied to an in-memory vector
(each submission reads the vector the previous one wrote). -/
def applyFeedbackSeq (csp : Csp) (evs : List FeedbackEv) : Csp :=
  evs.foldl (fun c e => updateCspPure c e.action e.context e.hour e.now) csp

/-- Number of ignore submissions in a sequence. -/
def countIgnores (evs : List FeedbackEv) : ℕ :=
  (evs.filter (fun e => e.action == "ignore")).length

/-- The weight fields of the vector that the claim requires to stay in
[0, 1]: the three time-band weights, the two effort preferences, the break
frequency weight, the suggestion confidence, and the high-load override
tendency. -/
def WeightsIn01 (c : Csp) : Prop :=
  (0 ≤ c.morning_task_weight ∧ c.morning_task_weight ≤ 1) ∧
  (0 ≤ c.afternoon_task_weight ∧ c.afternoon_task_weight ≤ 1) ∧
  (0 ≤ c.evening_task_weight ∧ c.evening_task_weight ≤ 1) ∧
  (0 ≤ c.high_effort_preference ∧ c.high_effort_preference ≤ 1) ∧
  (0 ≤ c.low_effort_preference ∧ c.low_effort_preference ≤ 1) ∧
  (0 ≤ c.break_frequency_weight ∧ c.break_frequency_weight ≤ 1) ∧
  (0 ≤ c.suggestion_confidence ∧ c.suggestion_confidence ≤ 1) ∧
  (0 ≤ c.high_load_override_tendency ∧ c.high_load_override_tendency ≤ 1)

/-- A feedback context carrying no optional data. -/
def emptyFeedbackContext : FeedbackContext :=
  { card_items := none, cognitive_load := none, chosen_alternative := none,
    original_items := none }

/-- A concrete mixed feedback run: an accept of a focus card in the morning,
an override with a chosen alternative under high load in the evening, and an
afternoon ignore. -/
def c2Events : List FeedbackEv :=
  [{ action := "accept",
     context := { card_items := some [some "Deep Focus block"], cognitive_load := some 30,
                  chosen_alternative := none, original_items := none },
     hour := 9, now := "2024-01-01T09:00:00Z" },
   { action := "override",
     context := { card_items := none, cognitive_load := some 80,
                  chosen_alternative := some "Walk outside",
                  original_items := some "Deep work" },
     hour := 19, now := "2024-01-01T19:00:00Z" },
   { action := "ignore",
     context := emptyFeedbackContext, hour := 13, now := "2024-01-02T13:00:00Z" }]

/-- A concrete run with five ignores interleaved with accepts and overrides. -/
def c10Events : List FeedbackEv :=
  [{ action := "ignore", context := emptyFeedbackContext, hour := 10, now := "t1" },
   { action := "accept", context := emptyFeedbackContext, hour := 11, now := "t2" },
   { action := "ignore", context := emptyFeedbackContext, hour := 12, now := "t3" },
   { action := "override", context := emptyFeedbackContext, hour := 13, now := "t4" },
   { action := "ignore", context := emptyFeedbackContext, hour := 14, now := "t5" },
   { action := "ignore", context := emptyFeedbackContext, hour := 15, now := "t6" },
   { action := "accept", context := emptyFeedbackContext, hour := 16, now := "t7" },
   { action := "ignore", context := emptyFeedbackContext, hour := 17, now := "t8" }]

end CspLearning

/-- The JS read pattern `value || default` on an optional string field. -/
def jsOrStr (o : Option String) (d : String) : String :=
  match o with
  | some s => if s = "" then d else s
  | none => d

namespace DecisionEngine

/-- A row of the `decisions` table (a candidate item). `preferred_time`
holds the hour parsed from the stored "HH:MM" string
(`parseInt(decision.preferred_time.split(':')[0])`); an absent or empty
string is `none`. The engine only reads active rows (the fetch filters
`active = true`). -/
structure Decision where
  title : String
  type : String
  effort : Option ℕ
  estimated_minutes : Option ℕ
  meal_type : Option String
  break_duration : Option ℕ
  preferred_time : Option ℕ
  tags : List String
  frequency : String
  active : Bool

/-- A row of the `feedback` table as the engine reads it;
`context_card_items` models `f.context?.card_items`. -/
structure Feedback where
  action : String
  item_value : Option String
  override_value : Option String
  context_card_items : Option (List String)

/-- A row of the `profiles` table as the engine reads it. -/
structure Profile where
  csp_vector : Option Csp

/-- Model of `getDefaultCsp()` of the decision engine service (the smaller default
object; fields it does not carry are 0 / [] / false / none here, and every
read applies the JS `||` default). -/
def getDefaultCsp : Csp where
  morning_task_weight := 1/2
  afternoon_task_weight := 1/2
  evening_task_weight := 3/10
  high_effort_preference := 1/2
  low_effort_preference := 1/2
  break_frequency_weight := 1/2
  focus_duration_preference := 50
  suggestion_confidence := 1/2
  high_load_override_tendency := 0
  accept_rate := 0
  override_rate := 0
  ignore_rate := 0
  total_decisions := 0
  total_accepts := 0
  total_overrides := 0
  total_ignores := 0
  consecutive_accepts := 0
  consecutive_overrides := 0
  consecutive_ignores := 0
  preferred_alternatives := []
  needs_recalibration := false
  last_learned_at := none

/-- JS `decision.effort && decision.effort >= n` (0 and undefined are falsy). -/
def effortTruthyGe (d : Decision) (n : ℕ) : Bool :=
  match d.effort with
  | some e => decide (e ≠ 0 ∧ n ≤ e)
  | none => false

/-- JS `decision.effort >= n` without the truthiness guard (comparing
undefined is false). -/
def effortGe (d : Decision) (n : ℕ) : Bool :=
  match d.effort with
  | some e => decide (n ≤ e)
  | none => false

/-- JS `decision.effort && decision.effort <= 2`. -/
def effortTruthyLight (d : Decision) : Bool :=
  match d.effort with
  | some e => decide (e ≠ 0 ∧ e ≤ 2)
  | none => false

/-- Time-based scoring section of `scoreDecision`: band weight times 30,
a flat +10 on a strong (> 0.6) morning weight, and a -15 evening penalty
for high-effort items. -/
def timeComponent (d : Decision) (csp : Csp) (currentHour : ℕ) : ℚ :=
  if 6 ≤ currentHour ∧ currentHour < 12 then
    let morningWeight := jsOr csp.morning_task_weight (1/2)
    morningWeight * 30 + (if morningWeight > 3/5 then 10 else 0)
  else if 12 ≤ currentHour ∧ currentHour < 17 then
    jsOr csp.afternoon_task_weight (1/2) * 30
  else
    jsOr csp.evening_task_weight (3/10) * 30 -
      (if effortTruthyGe d 4 then 15 else 0)

/-- Effort-based scoring section of `scoreDecision`. -/
def effortComponent (d : Decision) (csp : Csp) : ℚ :=
  match d.effort with
  | none => 0
  | some e =>
    if e = 0 then 0
    else if 4 ≤ e then
      let highEffortPref := jsOr csp.high_effort_preference (1/2)
      highEffortPref * 20 - (if highEffortPref < 2/5 then 10 else 0)
    else if e ≤ 2 then
      jsOr csp.low_effort_preference (1/2) * 20
    else 0

/-- Preferred-time proximity section of `scoreDecision`. -/
def prefTimeComponent (d : Decision) (currentHour : ℕ) : ℚ :=
  match d.preferred_time with
  | none => 0
  | some prefHour =>
    let hourDiff := ((currentHour : ℤ) - (prefHour : ℤ)).natAbs
    if hourDiff ≤ 1 then 35
    else if hourDiff ≤ 2 then 25
    else if hourDiff ≤ 3 then 10
    else 0

/-- Meal-timing section of `scoreDecision`. -/
def mealComponent (d : Decision) (currentHour : ℕ) : ℚ :=
  if d.type = "meal" ∧ jsTruthyStr d.meal_type then
    if d.meal_type = some "breakfast" ∧ 6 ≤ currentHour ∧ currentHour < 10 then 35
    else if d.meal_type = some "lunch" ∧ 11 ≤ currentHour ∧ currentHour < 14 then 35
    else if d.meal_type = some "dinner" ∧ 17 ≤ currentHour ∧ currentHour < 21 then 35
    else if d.meal_type = some "snack" then 10
    else 0
  else 0

/-- Feedback-to-item correlation: substring match against the suggested
item text or exact membership in the stored card-item list. -/
def feedbackMatches (f : Feedback) (title : String) : Bool :=
  (match f.item_value with
   | some s => strIncludes s title
   | none => false) ||
  (match f.context_card_items with
   | some l => l.contains title
   | none => false)

/-- Feedback-history section of `scoreDecision`: +8 per recent accept,
-12 per recent override, -5 per recent ignore of this item, and +15 per
occurrence of this title as a recorded override alternative. -/
def feedbackComponent (d : Decision) (recentFeedback : List Feedback) : ℚ :=
  if 0 < recentFeedback.length then
    let decisionFeedback := recentFeedback.filter (fun f => feedbackMatches f d.title)
    let recentOverrides := (decisionFeedback.filter (fun f => f.action == "override")).length
    let recentAccepts := (decisionFeedback.filter (fun f => f.action == "accept")).length
    let recentIgnores := (decisionFeedback.filter (fun f => f.action == "ignore")).length
    let chosenAsAlternative :=
      (recentFeedback.filter (fun f => f.override_value == some d.title)).length
    (if 0 < recentAccepts then (recentAccepts : ℚ) * 8 else 0) -
    (if 0 < recentOverrides then (recentOverrides : ℚ) * 12 else 0) -
    (if 0 < recentIgnores then (recentIgnores : ℚ) * 5 else 0) +
    (if 0 < chosenAsAlternative then (chosenAsAlternative : ℚ) * 15 else 0)
  else 0

/-- Low-confidence compensation section of `scoreDecision`: when the read
confidence (`csp.suggestion_confidence || 0.5`) is below 0.3 and the item
has an explicit preferred time, add 10. -/
def confidenceAdjustment (csp : Csp) (d : Decision) : ℚ :=
  if jsOr csp.suggestion_confidence (1/2) < 3/10 then
    (if d.preferred_time.isSome then 10 else 0)
  else 0

/-- Priority-tag section of `scoreDecision`. -/
def tagComponent (d : Decision) : ℚ :=
  if 0 < d.tags.length then
    (if d.tags.contains "urgent" then 20 else 0) +
    (if d.tags.contains "important" then 15 else 0) +
    (if d.tags.contains "quick" then 5 else 0)
  else 0

/-- Model of `scoreDecision(decision, csp, currentHour, recentFeedback)`: base 50
plus the additive sections in source order, floored at 0 after rounding.
A null feedback list behaves exactly like an empty one (every use is behind
a length guard), so it is modelled as a plain list. -/
def scoreDecision (d : Decision) (csp : Csp) (currentHour : ℕ)
    (recentFeedback : List Feedback) : ℤ :=
  max 0 (jround (50 + timeComponent d csp currentHour + effortComponent d csp +
    prefTimeComponent d currentHour + mealComponent d currentHour +
    feedbackComponent d recentFeedback + confidenceAdjustment csp d +
    tagComponent d))

/-- One item of a compressed card. -/
structure CardItem where
  type : String
  decision : Decision
  action : String

/-- A compressed decision card. -/
structure Card where
  id : String
  title : String
  emoji : String
  items : List CardItem
  duration : ℚ
  why : String
  autonomy_level : String
  priority : String

/-- Model of `getTimePeriod(hour)`. -/
def getTimePeriod (hour : ℕ) : String :=
  if 5 ≤ hour ∧ hour < 12 then "Morning"
  else if 12 ≤ hour ∧ hour < 17 then "Afternoon"
  else if 17 ≤ hour ∧ hour < 21 then "Evening"
  else "Night"

/-- Model of `getCardEmoji(timePeriod, type)`. -/
def getCardEmoji (timePeriod : String) (cardType : String) : String :=
  if cardType = "focus" then
    if timePeriod = "Morning" then "🌅"
    else if timePeriod = "Afternoon" then "🎯"
    else if timePeriod = "Evening" then "🌆"
    else "🌙"
  else "📋"

/-- Model of `getMealRelevance(meal, currentHour)`: a 0..1 relevance score. -/
def getMealRelevance (meal : Decision) (currentHour : ℕ) : ℚ :=
  if jsTruthyStr meal.meal_type then
    if meal.meal_type = some "breakfast" then
      if 6 ≤ currentHour ∧ currentHour < 10 then 1
      else if 10 ≤ currentHour ∧ currentHour < 11 then 1/2
      else 1/5
    else if meal.meal_type = some "lunch" then
      if 11 ≤ currentHour ∧ currentHour < 14 then 1
      else if 14 ≤ currentHour ∧ currentHour < 15 then 1/2
      else 1/5
    else if meal.meal_type = some "dinner" then
      if 17 ≤ currentHour ∧ currentHour < 21 then 1
      else if 16 ≤ currentHour ∧ currentHour < 17 then 1/2
      else 1/5
    else if meal.meal_type = some "snack" then 3/5
    else 1/2
  else 1/2

/-- Model of `getMealCardTitle(meal, currentHour)` (the hour parameter is unused in
the source as well). -/
def getMealCardTitle (meal : Decision) (currentHour : ℕ) : String :=
  if meal.meal_type = some "breakfast" then "Breakfast Time"
  else if meal.meal_type = some "lunch" then "Lunch Break"
  else if meal.meal_type = some "dinner" then "Dinner Time"
  else if meal.meal_type = some "snack" then "Snack Break"
  else "Meal Time"

/-- Model of `getMealEmoji(mealType)`. -/
def getMealEmoji (mealType : Option String) : String :=
  if mealType = some "breakfast" then "🍳"
  else if mealType = some "lunch" then "🥗"
  else if mealType = some "dinner" then "🍽️"
  else if mealType = some "snack" then "🍎"
  else "🍴"

/-- JS `string.charAt(0).toUpperCase() + string.slice(1)`. -/
def capitalizeFirst (s : String) : String :=
  match s.data with
  | [] => s
  | ch :: rest => String.mk (ch.toUpper :: rest)

/-- Model of `generateSmartWhy(decision, csp, currentHour, recentFeedback)`:
the rationale text assembled from the fixed rule list in source order. -/
def generateSmartWhy (decisionOpt : Option Decision) (csp : Csp) (currentHour : ℕ)
    (recentFeedback : List Feedback) : String :=
  match decisionOpt with
  | none => "Based on your preferences."
  | some decision =>
    let acceptRate := jsOr csp.accept_rate 0
    let r1 : List String :=
      if 6 ≤ currentHour ∧ currentHour < 12 then
        let morningWeight := jsOr csp.morning_task_weight (1/2)
        if morningWeight > 3/5 then ["Your shadow noticed you\x27re most productive in mornings"]
        else if morningWeight > 1/2 then ["Morning is a good time for focused work"]
        else []
      else if 12 ≤ currentHour ∧ currentHour < 17 then
        if jsOr csp.afternoon_task_weight (1/2) > 3/5 then
          ["You tend to handle tasks well in the afternoon"]
        else []
      else
        if jsOr csp.evening_task_weight (3/10) > 2/5 ∧ effortTruthyLight decision then
          ["Light evening task matches your pattern"]
        else ["Winding down for the evening"]
    let r2 := r1 ++
      (if effortGe decision 4 ∧ jsOr csp.high_effort_preference (1/2) > 3/5 then
        ["you\x27ve shown you can handle challenging tasks"]
       else [])
    let r3 := r2 ++
      (if 0 < recentFeedback.length then
        (if recentFeedback.any (fun f => f.action == "accept" && feedbackMatches f decision.title) then
          ["you accepted this recently"]
         else []) ++
        (if recentFeedback.any (fun f => f.override_value == some decision.title) then
          ["you specifically chose this before"]
         else [])
       else [])
    let r4 := r3 ++
      (match decision.preferred_time with
       | none => []
       | some prefHour =>
         if ((currentHour : ℤ) - (prefHour : ℤ)).natAbs ≤ 2 then ["matches your preferred time"]
         else [])
    let r5 := if acceptRate > 7/10 ∧ 0 < r4.length then "Your shadow is confident" :: r4 else r4
    let r6 := r5 ++
      (if decision.tags.contains "urgent" then ["marked urgent"]
       else if decision.tags.contains "important" then ["marked as important"]
       else [])
    match r6 with
    | [] => "Based on your schedule and preferences."
    | r0 :: rest =>
      capitalizeFirst r0 ++
        (if 0 < rest.length then ", " ++ String.intercalate ", " rest else "") ++ "."

/-- Model of `generateMealWhy(meal, csp)`. -/
def generateMealWhy (meal : Decision) (csp : Csp) : String :=
  if jsOr csp.accept_rate 0 > 7/10 then
    "Your shadow knows it\x27s " ++ jsOrStr meal.meal_type "meal" ++ " time."
  else
    "It\x27s " ++ jsOrStr meal.meal_type "meal" ++ " time based on your schedule."

/-- Model of `generateEveningWhy(csp)`. -/
def generateEveningWhy (csp : Csp) : String :=
  if jsOr csp.evening_task_weight (3/10) > 1/2 then
    "You sometimes do light tasks in the evening."
  else
    "Winding down with a lighter task for the evening."

/-- Model of `generateCompressedCards(tasks, meals, breaks, csp, currentHour,
autonomyLevel, recentFeedback)`: the fixed four-slot card construction. -/
def generateCompressedCards (tasks meals breaks : List Decision) (csp : Csp)
    (currentHour : ℕ) (autonomyLevel : String) (recentFeedback : List Feedback) :
    List Card :=
  let focusDuration := jsOr csp.focus_duration_preference 50
  let confidence := jsOr csp.suggestion_confidence (1/2)
  let maxCards : ℕ :=
    if autonomyLevel = "auto" then 2
    else if autonomyLevel = "assist" then (if confidence > 3/5 then 3 else 4)
    else 4
  let timePeriod := getTimePeriod currentHour
  let primaryTask := tasks.head?
  let primaryBreak := breaks.head?
  let cards : List Card :=
    if primaryTask.isSome || primaryBreak.isSome then
      let card1Items : List CardItem :=
        match primaryTask with
        | some t => [{ type := "task", decision := t, action := "Focus on: " ++ t.title }]
        | none => []
      let totalDuration : ℚ :=
        match primaryTask with
        | some t => jsOrNQ t.estimated_minutes focusDuration
        | none => 0
      let breakFreq := jsOr csp.break_frequency_weight (1/2)
      let withBreak :=
        match primaryBreak with
        | some b =>
          if 0 < card1Items.length ∧ breakFreq > 3/10 then
            let breakItem : CardItem :=
              { type := "break", decision := b,
                action := "Then: " ++ b.title ++ " (" ++ toString (jsOrN b.break_duration 10) ++ "min)" }
            (card1Items ++ [breakItem], totalDuration + jsOrNQ b.break_duration 10)
          else (card1Items, totalDuration)
        | none => (card1Items, totalDuration)
      if 0 < withBreak.1.length then
        let focusCard : Card :=
          { id := "card_1", title := timePeriod ++ " Focus Block",
            emoji := getCardEmoji timePeriod "focus", items := withBreak.1,
            duration := withBreak.2,
            why := generateSmartWhy primaryTask csp currentHour recentFeedback,
            autonomy_level := autonomyLevel, priority := "high" }
        [focusCard]
      else []
    else []
  let cards :=
    match meals.head? with
    | some relevantMeal =>
      if cards.length < maxCards ∧ getMealRelevance relevantMeal currentHour > 1/2 then
        let mealCard : Card :=
          { id := "card_2", title := getMealCardTitle relevantMeal currentHour,
            emoji := getMealEmoji relevantMeal.meal_type,
            items := [{ type := "meal", decision := relevantMeal, action := relevantMeal.title }],
            duration := 30, why := generateMealWhy relevantMeal csp,
            autonomy_level := autonomyLevel, priority := "medium" }
        cards ++ [mealCard]
      else cards
    | none => cards
  let cards :=
    match tasks[1]? with
    | some secondaryTask =>
      if cards.length < maxCards then
        let secondaryBreak := (breaks[1]?).orElse (fun _ => breaks.head?)
        let card3Items : List CardItem :=
          [{ type := "task", decision := secondaryTask,
             action := "Next up: " ++ secondaryTask.title }]
        let totalDuration := jsOrNQ secondaryTask.estimated_minutes focusDuration
        let withBreak :=
          match secondaryBreak with
          | some b =>
            if autonomyLevel ≠ "auto" ∧ jsOr csp.break_frequency_weight (1/2) > 3/10 then
              let breakItem : CardItem :=
                { type := "break", decision := b, action := "Break: " ++ b.title }
              (card3Items ++ [breakItem], totalDuration + jsOrNQ b.break_duration 10)
            else (card3Items, totalDuration)
          | none => (card3Items, totalDuration)
        let nextCard : Card :=
          { id := "card_3", title := "Next Block", emoji := "📋",
            items := withBreak.1, duration := withBreak.2,
            why := generateSmartWhy (some secondaryTask) csp currentHour recentFeedback,
            autonomy_level := autonomyLevel, priority := "medium" }
        cards ++ [nextCard]
      else cards
    | none => cards
  let cards :=
    if cards.length < maxCards ∧ autonomyLevel = "manual" then
      if 18 ≤ currentHour then
        match (tasks.find? (fun t => effortTruthyLight t)).orElse (fun _ => tasks[2]?) with
        | some lightTask =>
          let windDownCard : Card :=
            { id := "card_4", title := "Evening Wind-down", emoji := "🌙",
              items := [{ type := "task", decision := lightTask,
                          action := "Light task: " ++ lightTask.title }],
              duration := jsOrNQ lightTask.estimated_minutes 20,
              why := generateEveningWhy csp,
              autonomy_level := autonomyLevel, priority := "low" }
          cards ++ [windDownCard]
        | none => cards
      else if 2 < tasks.length then
        match tasks[2]? with
        | some thirdTask =>
          let bonusCard : Card :=
            { id := "card_4", title := "Bonus Block", emoji := "⭐",
              items := [{ type := "task", decision := thirdTask,
                          action := "Also: " ++ thirdTask.title }],
              duration := jsOrNQ thirdTask.estimated_minutes 30,
              why := "You have capacity for one more task today.",
              autonomy_level := autonomyLevel, priority := "low" }
          cards ++ [bonusCard]
        | none => cards
      else cards
    else cards
  cards

/-- The result of `generateDailyPlan` (`generatedAt` and the informational
`learningInsights` object are timestamps/diagnostics and are omitted). -/
structure PlanResult where
  cards : List Card
  cognitiveLoad : ℤ
  autonomyLevel : String
  message : Option String
  totalDecisions : Option ℕ

/-- The user-facing message of the zero-candidate early return. -/
def noActiveMessage : String :=
  "No active decisions found. Add some tasks, meals, or breaks first!"

/-- The early return of `generateDailyPlan` when the user has no active
candidate items. -/
def noActivePlan (loadData : CognitiveLoad.CognitiveLoadResult) : PlanResult :=
  { cards := [], cognitiveLoad := loadData.score,
    autonomyLevel := loadData.autonomyLevel,
    message := some noActiveMessage, totalDecisions := none }

/-- The frequency filter of step 5 of `generateDailyPlan`. -/
def isApplicableToday (d : Decision) (isWeekday isWeekend : Bool) : Bool :=
  if d.frequency == "daily" then true
  else if d.frequency == "weekdays" && isWeekday then true
  else if d.frequency == "weekends" && isWeekend then true
  else if d.frequency == "weekly" then true
  else false

/-- Model of `generateDailyPlan(userId)`: the cognitive-load result is an input (the
call itself never throws, see `calculateCognitiveLoad`); the three store
reads are `Except` inputs (`.error` = the awaited promise rejected, caught
by the catch block and rethrown); the wall-clock day of week and hour are
parameters. The decisions read returns only rows with `active = true`
(the query filters on it). The stable descending sort mirrors the JS
`sort((a, b) => b.score - a.score)`. -/
def generateDailyPlan (loadData : CognitiveLoad.CognitiveLoadResult)
    (profileRes : Except String (Option Profile))
    (decisionsRes : Except String (Option (List Decision)))
    (feedbackRes : Except String (Option (List Feedback)))
    (dayOfWeek currentHour : ℕ) : Except String PlanResult :=
  match profileRes with
  | .error e => .error e
  | .ok profileOpt =>
    let csp := (profileOpt.bind Profile.csp_vector).getD getDefaultCsp
    match decisionsRes with
    | .error e => .error e
    | .ok none => .ok (noActivePlan loadData)
    | .ok (some decisions) =>
      if decisions.length = 0 then .ok (noActivePlan loadData)
      else
        match feedbackRes with
        | .error e => .error e
        | .ok fbOpt =>
          let recentFeedback := fbOpt.getD []
          let isWeekday := decide (1 ≤ dayOfWeek ∧ dayOfWeek ≤ 5)
          let isWeekend := decide (dayOfWeek = 0 ∨ dayOfWeek = 6)
          let applicableDecisions :=
            decisions.filter (fun d => isApplicableToday d isWeekday isWeekend)
          let scoredDecisions :=
            (applicableDecisions.map
              (fun d => (d, scoreDecision d csp currentHour recentFeedback))).mergeSort
              (fun a b => decide (b.2 ≤ a.2))
          let tasks := (scoredDecisions.filter (fun p => p.1.type == "task")).map Prod.fst
          let meals := (scoredDecisions.filter (fun p => p.1.type == "meal")).map Prod.fst
          let breaks := (scoredDecisions.filter (fun p => p.1.type == "break")).map Prod.fst
          let cards := generateCompressedCards tasks meals breaks csp currentHour
            loadData.autonomyLevel recentFeedback
          .ok { cards := cards, cognitiveLoad := loadData.score,
                autonomyLevel := loadData.autonomyLevel, message := none,
                totalDecisions := some applicableDecisions.length }

/-- A task item carrying only an explicit preferred time. -/
def stretchItem : Decision :=
  { title := "Stretch", type := "task", effort := none, estimated_minutes := none,
    meal_type := none, break_duration := none, preferred_time := some 8,
    tags := [], frequency := "daily", active := true }

/-- A vector whose stored suggestion confidence is exactly 0. -/
def cspZeroConfidence : Csp :=
  { getDefaultCsp with suggestion_confidence := 0 }

/-- A vector whose stored suggestion confidence is 0.2. -/
def cspLowConfidence : Csp :=
  { getDefaultCsp with suggestion_confidence := 1/5 }

/-- A plain morning task with no optional attributes. -/
def reportItem : Decision :=
  { title := "Write report", type := "task", effort := none, estimated_minutes := none,
    meal_type := none, break_duration := none, preferred_time := none,
    tags := [], frequency := "daily", active := true }

/-- A vector with a strong learned morning weight of 0.8. -/
def cspMorning : Csp :=
  { getDefaultCsp with morning_task_weight := 4/5 }

end DecisionEngine

namespace FeedbackRoute

/-- The empty JS object `{}` that `updateCspCounters` falls back to when the
profile row has no `csp_vector`: every field is absent (0 / [] / false /
none in this embedding). -/
def emptyCspObj : Csp where
  morning_task_weight := 0
  afternoon_task_weight := 0
  evening_task_weight := 0
  high_effort_preference := 0
  low_effort_preference := 0
  break_frequency_weight := 0
  focus_duration_preference := 0
  suggestion_confidence := 0
  high_load_override_tendency := 0
  accept_rate := 0
  override_rate := 0
  ignore_rate := 0
  total_decisions := 0
  total_accepts := 0
  total_overrides := 0
  total_ignores := 0
  consecutive_accepts := 0
  consecutive_overrides := 0
  consecutive_ignores := 0
  preferred_alternatives := []
  needs_recalibration := false
  last_learned_at := none

/-- Model of `updateCspCounters(userId, action)` of the feedback route. The JS
function returns undefined on every path; this model returns the vector it
wrote to the store, or `none` when no write happened. Both the early
`if (!profile) return` and the catch block swallow store failures silently
(the write result of the final update call is not even inspected, but a
rejected write promise lands in the catch block): no path signals an error
to the caller. -/
def updateCspCounters (fetchRes : Except String (Option (Option Csp)))
    (action : String) (writeRes : Except String Unit) : Option Csp :=
  match fetchRes with
  | .error _ => none
  | .ok none => none
  | .ok (some cspOpt) =>
    let csp := cspOpt.getD emptyCspObj
    let csp1 := { csp with total_decisions := csp.total_decisions + 1 }
    let csp2 :=
      if action = "accept" then { csp1 with total_accepts := csp1.total_accepts + 1 }
      else if action = "override" then { csp1 with total_overrides := csp1.total_overrides + 1 }
      else if action = "ignore" then { csp1 with total_ignores := csp1.total_ignores + 1 }
      else csp1
    let csp3 :=
      if 0 < csp2.total_decisions then
        { csp2 with accept_rate := (csp2.total_accepts : ℚ) / (csp2.total_decisions : ℚ),
                    override_rate := (csp2.total_overrides : ℚ) / (csp2.total_decisions : ℚ) }
      else csp2
    match writeRes with
    | .error _ => none
    | .ok _ => some csp3

/-- The HTTP response of POST /feedback as far as the claims need it. -/
structure FeedbackResponse where
  status : ℕ
  csp_updated : Bool

/-- The POST /feedback handler: body validation, the feedback insert, the
CSP counter update, and the response. A store failure inside
`updateCspCounters` does not reach the handler, which still responds 201
with `csp_updated: true`. -/
def feedbackPost (planId itemType action : Option String)
    (insertRes : Except String Unit)
    (profileFetch : Except String (Option (Option Csp)))
    (writeRes : Except String Unit) : FeedbackResponse :=
  if !(jsTruthyStr planId && jsTruthyStr itemType && jsTruthyStr action) then
    { status := 400, csp_updated := false }
  else
    let a := action.getD ""
    if !(a == "accept" || a == "override" || a == "ignore") then
      { status := 400, csp_updated := false }
    else
      match insertRes with
      | .error _ => { status := 500, csp_updated := false }
      | .ok _ =>
        let _ := updateCspCounters profileFetch a writeRes
        { status := 201, csp_updated := true }

end FeedbackRoute

/-!
Theorems. The claim theorems are named after the claim ids (C1 .. C10);
the remaining theorems are supporting lemmas.
-/

theorem jround_eq_floor (q : ℚ) : jround q = ⌊q + 1/2⌋ := by
  unfold jround
  rw [Rat.floor_def, Rat.floor_def']

theorem jround_nonneg (q : ℚ) (h : 0 ≤ q) : 0 ≤ jround q := by
  rw [jround_eq_floor]
  exact Int.le_floor.mpr (by push_cast; linarith)

theorem jround_le (q : ℚ) (n : ℤ) (h : q ≤ n) : jround q ≤ n := by
  rw [jround_eq_floor]
  have h3 : ⌊q + 1/2⌋ < n + 1 := Int.floor_lt.mpr (by push_cast; linarith)
  omega

namespace CognitiveLoad

theorem autonomyLevelOf_eq_tierSpec (s : ℤ) : autonomyLevelOf s = tierSpec s := by
  unfold autonomyLevelOf tierSpec
  split_ifs <;> first | rfl | omega

theorem decisionsValue_bounds (c : ℕ) : 0 ≤ decisionsValue c ∧ decisionsValue c ≤ 30 := by
  unfold decisionsValue
  constructor
  · exact le_min (by norm_num) (jround_nonneg _ (by positivity))
  · exact min_le_left _ _

theorem overridesValue_bounds (o c : ℕ) : 0 ≤ overridesValue o c ∧ overridesValue o c ≤ 25 := by
  unfold overridesValue
  split_ifs
  · exact ⟨le_min (by norm_num) (jround_nonneg _ (by positivity)), min_le_left _ _⟩
  · exact ⟨le_refl 0, by norm_num⟩

theorem timeOnSiteValue_bounds (m : ℤ) : 0 ≤ timeOnSiteValue m ∧ timeOnSiteValue m ≤ 20 := by
  unfold timeOnSiteValue
  constructor
  · exact le_min (by norm_num) (jround_nonneg _ (by positivity))
  · exact min_le_left _ _

theorem timeOfDayValue_bounds (h : ℕ) : 0 ≤ timeOfDayValue h ∧ timeOfDayValue h ≤ 25 := by
  unfold timeOfDayValue
  split_ifs with h1 h2 h3
  · obtain ⟨ha, hb⟩ := h1
    have ha6 : (6 : ℚ) ≤ (h : ℚ) := by exact_mod_cast ha
    have hb12 : (h : ℚ) ≤ 11 := by exact_mod_cast Nat.lt_succ_iff.mp hb
    constructor
    · exact jround_nonneg _ (by nlinarith)
    · have := jround_le (((h : ℚ) - 6) / 6 * 5) 25 (by nlinarith)
      omega
  · obtain ⟨ha, hb⟩ := h2
    have ha12 : (12 : ℚ) ≤ (h : ℚ) := by exact_mod_cast ha
    have hb17 : (h : ℚ) ≤ 16 := by exact_mod_cast Nat.lt_succ_iff.mp hb
    have hl := jround_nonneg (((h : ℚ) - 12) / 5 * 5) (by nlinarith)
    have hu := jround_le (((h : ℚ) - 12) / 5 * 5) 15 (by nlinarith)
    omega
  · obtain ⟨ha, hb⟩ := h3
    have ha17 : (17 : ℚ) ≤ (h : ℚ) := by exact_mod_cast ha
    have hb21 : (h : ℚ) ≤ 20 := by exact_mod_cast Nat.lt_succ_iff.mp hb
    have hl := jround_nonneg (((h : ℚ) - 17) / 4 * 5) (by nlinarith)
    have hu := jround_le (((h : ℚ) - 17) / 4 * 5) 10 (by nlinarith)
    omega
  · omega
  · omega

/-- C1. For every input activity history (any feedback list, any event list,
any hour), the estimator's score lies in [0, 100] and its autonomy tier is
exactly the pure threshold function of the score given by the spec
(`score ≤ 33 → manual`, `34..66 → assist`, `≥ 67 → auto`); this also covers
the error path, whose fixed result (50, assist) satisfies both parts. -/
theorem C1_estimator_score_bounds_and_tier (fb : Except String (List FeedbackRow))
    (ev : Except String (List EventRow)) (hour : ℕ) :
    0 ≤ (calculateCognitiveLoad fb ev hour).score ∧
    (calculateCognitiveLoad fb ev hour).score ≤ 100 ∧
    (calculateCognitiveLoad fb ev hour).autonomyLevel =
      tierSpec (calculateCognitiveLoad fb ev hour).score := by
  cases fb with
  | error e =>
    exact ⟨by show (0:ℤ) ≤ 50; norm_num, by show (50:ℤ) ≤ 100; norm_num, rfl⟩
  | ok feedbackToday =>
    cases ev with
    | error e =>
      exact ⟨by show (0:ℤ) ≤ 50; norm_num, by show (50:ℤ) ≤ 100; norm_num, rfl⟩
    | ok events =>
      obtain ⟨hd1, hd2⟩ := decisionsValue_bounds feedbackToday.length
      obtain ⟨ho1, ho2⟩ := overridesValue_bounds
        ((feedbackToday.filter (fun f => f.action == "override")).length) feedbackToday.length
      obtain ⟨ht1, ht2⟩ := timeOnSiteValue_bounds (totalMinutesOf
        (events.foldl (fun sum e => sum + e.total_duration_ms.getD 0) 0))
      obtain ⟨hh1, hh2⟩ := timeOfDayValue_bounds hour
      simp only [calculateCognitiveLoad, initBreakdown]
      split_ifs with hc
      · dsimp only
        exact ⟨le_min (by norm_num) (by omega), min_le_left _ _, autonomyLevelOf_eq_tierSpec _⟩
      · dsimp only
        exact ⟨le_min (by norm_num) (by omega), min_le_left _ _, autonomyLevelOf_eq_tierSpec _⟩

/-- C7. If either store read fails (the feedback fetch or the events fetch
rejects), the estimator returns the safe default score 50 and tier assist
instead of propagating the failure. -/
theorem C7_fetch_failure_safe_default :
    (∀ (e : String) (ev : Except String (List EventRow)) (hour : ℕ),
       (calculateCognitiveLoad (.error e) ev hour).score = 50 ∧
       (calculateCognitiveLoad (.error e) ev hour).autonomyLevel = "assist") ∧
    (∀ (fb : List FeedbackRow) (e : String) (hour : ℕ),
       (calculateCognitiveLoad (.ok fb) (.error e) hour).score = 50 ∧
       (calculateCognitiveLoad (.ok fb) (.error e) hour).autonomyLevel = "assist") := by
  constructor
  · intro e ev hour
    exact ⟨rfl, rfl⟩
  · intro fb e hour
    exact ⟨rfl, rfl⟩

/-- C5 counterexample. The night-band contribution is not a linear
interpolation across the band: consecutive night hours 22 → 23 step by 1
point while the next band hour 23 → 0 steps by 3 points (hours 0..5 are all
pinned at the cap 25). -/
theorem C5_night_band_counterexample :
    timeOfDayValue 22 = 21 ∧ timeOfDayValue 23 = 22 ∧ timeOfDayValue 0 = 25 ∧
    ¬(timeOfDayValue 23 - timeOfDayValue 22 = timeOfDayValue 0 - timeOfDayValue 23) := by
  refine ⟨rfl, rfl, rfl, by decide⟩

/-- C5 amended. For every hour in the night band (hours not in [6, 21)) the
contribution lies in 20..25 and never exceeds the cap 25, but it is not one
linear interpolation across the band: hours 21..23 map linearly (slope 1
point per hour) to 20..22, while hours 0..5 are all pinned at the cap 25. -/
theorem C5_night_band_amended (hour : ℕ) (hlt : hour < 24)
    (hband : ¬(6 ≤ hour ∧ hour < 21)) :
    (20 ≤ timeOfDayValue hour ∧ timeOfDayValue hour ≤ 25) ∧
    (21 ≤ hour → timeOfDayValue hour = 20 + ((hour : ℤ) - 21)) ∧
    (hour < 6 → timeOfDayValue hour = 25) := by
  have h6 : hour < 6 ∨ 21 ≤ hour := by omega
  unfold timeOfDayValue
  rcases h6 with h | h
  · rw [if_neg (by omega), if_neg (by omega), if_neg (by omega), if_neg (by omega)]
    refine ⟨⟨by omega, by omega⟩, by omega, fun _ => by omega⟩
  · rw [if_neg (by omega), if_neg (by omega), if_neg (by omega), if_pos (by omega)]
    have hmin : min 5 ((hour : ℤ) - 21) = (hour : ℤ) - 21 := by
      have : (hour : ℤ) ≤ 23 := by exact_mod_cast Nat.lt_succ_iff.mp hlt
      have : (21 : ℤ) ≤ (hour : ℤ) := by exact_mod_cast h
      omega
    rw [hmin]
    have h23 : (hour : ℤ) ≤ 23 := by exact_mod_cast Nat.lt_succ_iff.mp hlt
    have h21 : (21 : ℤ) ≤ (hour : ℤ) := by exact_mod_cast h
    exact ⟨⟨by omega, by omega⟩, fun _ => by omega, fun hc => by omega⟩

/-- C5 witness: hour 23 is in the night band and satisfies the amended bounds. -/
theorem C5_night_band_witness :
    (23 < 24 ∧ ¬(6 ≤ 23 ∧ 23 < 21)) ∧
    ((20 ≤ timeOfDayValue 23 ∧ timeOfDayValue 23 ≤ 25) ∧
     (21 ≤ 23 → timeOfDayValue 23 = 20 + ((23 : ℤ) - 21)) ∧
     (23 < 6 → timeOfDayValue 23 = 25)) :=
  ⟨⟨by omega, by omega⟩, C5_night_band_amended 23 (by omega) (by omega)⟩

end CognitiveLoad

namespace CspLearning

theorem clamp_mem (v : ℚ) : 0 ≤ clamp v ∧ clamp v ≤ 1 := by
  unfold clamp
  constructor
  · exact le_max_left 0 _
  · exact max_le (by norm_num) (min_le_left 1 v)

theorem acceptBand_weights (c : Csp) (h : ℕ) (hw : WeightsIn01 c) :
    WeightsIn01 (acceptBand c h) := by
  obtain ⟨w1, w2, w3, w4, w5, w6, w7, w8⟩ := hw
  unfold acceptBand WeightsIn01
  split_ifs
  · exact ⟨clamp_mem _, w2, w3, w4, w5, w6, w7, w8⟩
  · exact ⟨w1, clamp_mem _, w3, w4, w5, w6, w7, w8⟩
  · exact ⟨w1, w2, clamp_mem _, w4, w5, w6, w7, w8⟩

theorem overrideBand_weights (c : Csp) (h : ℕ) (hw : WeightsIn01 c) :
    WeightsIn01 (overrideBand c h) := by
  obtain ⟨w1, w2, w3, w4, w5, w6, w7, w8⟩ := hw
  unfold overrideBand WeightsIn01
  split_ifs
  · exact ⟨clamp_mem _, w2, w3, w4, w5, w6, w7, w8⟩
  · exact ⟨w1, clamp_mem _, w3, w4, w5, w6, w7, w8⟩
  · exact ⟨w1, w2, clamp_mem _, w4, w5, w6, w7, w8⟩

theorem ignoreBand_weights (c : Csp) (h : ℕ) (hw : WeightsIn01 c) :
    WeightsIn01 (ignoreBand c h) := by
  obtain ⟨w1, w2, w3, w4, w5, w6, w7, w8⟩ := hw
  unfold ignoreBand WeightsIn01
  split_ifs
  · exact ⟨clamp_mem _, w2, w3, w4, w5, w6, w7, w8⟩
  · exact ⟨w1, clamp_mem _, w3, w4, w5, w6, w7, w8⟩
  · exact ⟨w1, w2, clamp_mem _, w4, w5, w6, w7, w8⟩

theorem acceptEffort_weights (c : Csp) (ctx : FeedbackContext) (hw : WeightsIn01 c) :
    WeightsIn01 (acceptEffort c ctx) := by
  obtain ⟨w1, w2, w3, w4, w5, w6, w7, w8⟩ := hw
  unfold acceptEffort WeightsIn01
  split_ifs
  · exact ⟨w1, w2, w3, clamp_mem _, w5, w6, w7, w8⟩
  · exact ⟨w1, w2, w3, w4, w5, w6, w7, w8⟩

theorem overrideHighLoad_weights (c : Csp) (ctx : FeedbackContext) (hw : WeightsIn01 c) :
    WeightsIn01 (overrideHighLoad c ctx) := by
  obtain ⟨w1, w2, w3, w4, w5, w6, w7, w8⟩ := hw
  unfold overrideHighLoad WeightsIn01
  split_ifs
  · exact ⟨w1, w2, w3, w4, w5, w6, w7, clamp_mem _⟩
  · exact ⟨w1, w2, w3, w4, w5, w6, w7, w8⟩

theorem acceptConfidence_weights (c : Csp) (hw : WeightsIn01 c) :
    WeightsIn01 (acceptConfidence c) := by
  obtain ⟨w1, w2, w3, w4, w5, w6, w7, w8⟩ := hw
  unfold acceptConfidence WeightsIn01
  split_ifs
  · exact ⟨w1, w2, w3, w4, w5, w6, clamp_mem _, w8⟩
  · exact ⟨w1, w2, w3, w4, w5, w6, w7, w8⟩

theorem overrideConfidence_weights (c : Csp) (hw : WeightsIn01 c) :
    WeightsIn01 (overrideConfidence c) := by
  obtain ⟨w1, w2, w3, w4, w5, w6, w7, w8⟩ := hw
  unfold overrideConfidence WeightsIn01
  split_ifs
  · exact ⟨w1, w2, w3, w4, w5, w6, clamp_mem _, w8⟩
  · exact ⟨w1, w2, w3, w4, w5, w6, w7, w8⟩

theorem acceptStreak_weights (c : Csp) (hw : WeightsIn01 c) :
    WeightsIn01 (acceptStreak c) := hw

theorem overrideStreak_weights (c : Csp) (hw : WeightsIn01 c) :
    WeightsIn01 (overrideStreak c) := hw

theorem ignoreStreak_weights (c : Csp) (hw : WeightsIn01 c) :
    WeightsIn01 (ignoreStreak c) := hw

theorem ignoreRecalibration_weights (c : Csp) (hw : WeightsIn01 c) :
    WeightsIn01 (ignoreRecalibration c) := by
  unfold ignoreRecalibration
  split_ifs
  · exact hw
  · exact hw

theorem overrideAlternative_weights (c : Csp) (ctx : FeedbackContext) (h : ℕ)
    (hw : WeightsIn01 c) : WeightsIn01 (overrideAlternative c ctx h) := by
  unfold overrideAlternative
  cases ctx.chosen_alternative with
  | none => exact hw
  | some alt =>
    dsimp only
    split_ifs <;> exact hw

theorem applyAcceptLearning_weights (c : Csp) (ctx : FeedbackContext) (h : ℕ)
    (hw : WeightsIn01 c) : WeightsIn01 (applyAcceptLearning c ctx h) :=
  acceptConfidence_weights _ (acceptStreak_weights _
    (acceptEffort_weights _ ctx (acceptBand_weights _ h hw)))

theorem applyOverrideLearning_weights (c : Csp) (ctx : FeedbackContext) (h : ℕ)
    (hw : WeightsIn01 c) : WeightsIn01 (applyOverrideLearning c ctx h) :=
  overrideAlternative_weights _ ctx h (overrideConfidence_weights _
    (overrideStreak_weights _ (overrideHighLoad_weights _ ctx (overrideBand_weights _ h hw))))

theorem applyIgnoreLearning_weights (c : Csp) (ctx : FeedbackContext) (h : ℕ)
    (hw : WeightsIn01 c) : WeightsIn01 (applyIgnoreLearning c ctx h) :=
  ignoreRecalibration_weights _ (ignoreStreak_weights _ (ignoreBand_weights _ h hw))

theorem dispatchLearning_weights (c : Csp) (a : String) (ctx : FeedbackContext)
    (h : ℕ) (hw : WeightsIn01 c) : WeightsIn01 (dispatchLearning c a ctx h) := by
  unfold dispatchLearning
  split_ifs with h1 h2 h3
  · exact applyAcceptLearning_weights _ ctx h hw
  · exact applyOverrideLearning_weights _ ctx h hw
  · exact applyIgnoreLearning_weights _ ctx h hw
  · exact hw

theorem updateRates_weights (c : Csp) (hw : WeightsIn01 c) : WeightsIn01 (updateRates c) := by
  unfold updateRates
  split_ifs <;> exact hw

theorem updateCspPure_weights (c : Csp) (a : String) (ctx : FeedbackContext)
    (h : ℕ) (now : String) (hw : WeightsIn01 c) :
    WeightsIn01 (updateCspPure c a ctx h now) :=
  updateRates_weights _ (dispatchLearning_weights _ a ctx h hw)

theorem acceptBand_total_decisions (c : Csp) (hr : ℕ) :
    (acceptBand c hr).total_decisions = c.total_decisions := by
  unfold acceptBand
  split_ifs <;> rfl

theorem acceptBand_total_accepts (c : Csp) (hr : ℕ) :
    (acceptBand c hr).total_accepts = c.total_accepts := by
  unfold acceptBand
  split_ifs <;> rfl

theorem acceptBand_total_overrides (c : Csp) (hr : ℕ) :
    (acceptBand c hr).total_overrides = c.total_overrides := by
  unfold acceptBand
  split_ifs <;> rfl

theorem acceptBand_total_ignores (c : Csp) (hr : ℕ) :
    (acceptBand c hr).total_ignores = c.total_ignores := by
  unfold acceptBand
  split_ifs <;> rfl

theorem acceptBand_consecutive_accepts (c : Csp) (hr : ℕ) :
    (acceptBand c hr).consecutive_accepts = c.consecutive_accepts := by
  unfold acceptBand
  split_ifs <;> rfl

theorem acceptBand_consecutive_overrides (c : Csp) (hr : ℕ) :
    (acceptBand c hr).consecutive_overrides = c.consecutive_overrides := by
  unfold acceptBand
  split_ifs <;> rfl

theorem acceptBand_consecutive_ignores (c : Csp) (hr : ℕ) :
    (acceptBand c hr).consecutive_ignores = c.consecutive_ignores := by
  unfold acceptBand
  split_ifs <;> rfl

theorem acceptBand_preferred_alternatives (c : Csp) (hr : ℕ) :
    (acceptBand c hr).preferred_alternatives = c.preferred_alternatives := by
  unfold acceptBand
  split_ifs <;> rfl

theorem acceptBand_needs_recalibration (c : Csp) (hr : ℕ) :
    (acceptBand c hr).needs_recalibration = c.needs_recalibration := by
  unfold acceptBand
  split_ifs <;> rfl

theorem overrideBand_total_decisions (c : Csp) (hr : ℕ) :
    (overrideBand c hr).total_decisions = c.total_decisions := by
  unfold overrideBand
  split_ifs <;> rfl

theorem overrideBand_total_accepts (c : Csp) (hr : ℕ) :
    (overrideBand c hr).total_accepts = c.total_accepts := by
  unfold overrideBand
  split_ifs <;> rfl

theorem overrideBand_total_overrides (c : Csp) (hr : ℕ) :
    (overrideBand c hr).total_overrides = c.total_overrides := by
  unfold overrideBand
  split_ifs <;> rfl

theorem overrideBand_total_ignores (c : Csp) (hr : ℕ) :
    (overrideBand c hr).total_ignores = c.total_ignores := by
  unfold overrideBand
  split_ifs <;> rfl

theorem overrideBand_consecutive_accepts (c : Csp) (hr : ℕ) :
    (overrideBand c hr).consecutive_accepts = c.consecutive_accepts := by
  unfold overrideBand
  split_ifs <;> rfl

theorem overrideBand_consecutive_overrides (c : Csp) (hr : ℕ) :
    (overrideBand c hr).consecutive_overrides = c.consecutive_overrides := by
  unfold overrideBand
  split_ifs <;> rfl

theorem overrideBand_consecutive_ignores (c : Csp) (hr : ℕ) :
    (overrideBand c hr).consecutive_ignores = c.consecutive_ignores := by
  unfold overrideBand
  split_ifs <;> rfl

theorem overrideBand_preferred_alternatives (c : Csp) (hr : ℕ) :
    (overrideBand c hr).preferred_alternatives = c.preferred_alternatives := by
  unfold overrideBand
  split_ifs <;> rfl

theorem overrideBand_needs_recalibration (c : Csp) (hr : ℕ) :
    (overrideBand c hr).needs_recalibration = c.needs_recalibration := by
  unfold overrideBand
  split_ifs <;> rfl

theorem ignoreBand_total_decisions (c : Csp) (hr : ℕ) :
    (ignoreBand c hr).total_decisions = c.total_decisions := by
  unfold ignoreBand
  split_ifs <;> rfl

theorem ignoreBand_total_accepts (c : Csp) (hr : ℕ) :
    (ignoreBand c hr).total_accepts = c.total_accepts := by
  unfold ignoreBand
  split_ifs <;> rfl

theorem ignoreBand_total_overrides (c : Csp) (hr : ℕ) :
    (ignoreBand c hr).total_overrides = c.total_overrides := by
  unfold ignoreBand
  split_ifs <;> rfl

theorem ignoreBand_total_ignores (c : Csp) (hr : ℕ) :
    (ignoreBand c hr).total_ignores = c.total_ignores := by
  unfold ignoreBand
  split_ifs <;> rfl

theorem ignoreBand_consecutive_accepts (c : Csp) (hr : ℕ) :
    (ignoreBand c hr).consecutive_accepts = c.consecutive_accepts := by
  unfold ignoreBand
  split_ifs <;> rfl

theorem ignoreBand_consecutive_overrides (c : Csp) (hr : ℕ) :
    (ignoreBand c hr).consecutive_overrides = c.consecutive_overrides := by
  unfold ignoreBand
  split_ifs <;> rfl

theorem ignoreBand_consecutive_ignores (c : Csp) (hr : ℕ) :
    (ignoreBand c hr).consecutive_ignores = c.consecutive_ignores := by
  unfold ignoreBand
  split_ifs <;> rfl

theorem ignoreBand_preferred_alternatives (c : Csp) (hr : ℕ) :
    (ignoreBand c hr).preferred_alternatives = c.preferred_alternatives := by
  unfold ignoreBand
  split_ifs <;> rfl

theorem ignoreBand_needs_recalibration (c : Csp) (hr : ℕ) :
    (ignoreBand c hr).needs_recalibration = c.needs_recalibration := by
  unfold ignoreBand
  split_ifs <;> rfl

theorem acceptEffort_total_decisions (c : Csp) (ctx : FeedbackContext) :
    (acceptEffort c ctx).total_decisions = c.total_decisions := by
  unfold acceptEffort
  split_ifs <;> rfl

theorem acceptEffort_total_accepts (c : Csp) (ctx : FeedbackContext) :
    (acceptEffort c ctx).total_accepts = c.total_accepts := by
  unfold acceptEffort
  split_ifs <;> rfl

theorem acceptEffort_total_overrides (c : Csp) (ctx : FeedbackContext) :
    (acceptEffort c ctx).total_overrides = c.total_overrides := by
  unfold acceptEffort
  split_ifs <;> rfl

theorem acceptEffort_total_ignores (c : Csp) (ctx : FeedbackContext) :
    (acceptEffort c ctx).total_ignores = c.total_ignores := by
  unfold acceptEffort
  split_ifs <;> rfl

theorem acceptEffort_consecutive_accepts (c : Csp) (ctx : FeedbackContext) :
    (acceptEffort c ctx).consecutive_accepts = c.consecutive_accepts := by
  unfold acceptEffort
  split_ifs <;> rfl

theorem acceptEffort_consecutive_overrides (c : Csp) (ctx : FeedbackContext) :
    (acceptEffort c ctx).consecutive_overrides = c.consecutive_overrides := by
  unfold acceptEffort
  split_ifs <;> rfl

theorem acceptEffort_consecutive_ignores (c : Csp) (ctx : FeedbackContext) :
    (acceptEffort c ctx).consecutive_ignores = c.consecutive_ignores := by
  unfold acceptEffort
  split_ifs <;> rfl

theorem acceptEffort_preferred_alternatives (c : Csp) (ctx : FeedbackContext) :
    (acceptEffort c ctx).preferred_alternatives = c.preferred_alternatives := by
  unfold acceptEffort
  split_ifs <;> rfl

theorem acceptEffort_needs_recalibration (c : Csp) (ctx : FeedbackContext) :
    (acceptEffort c ctx).needs_recalibration = c.needs_recalibration := by
  unfold acceptEffort
  split_ifs <;> rfl

theorem overrideHighLoad_total_decisions (c : Csp) (ctx : FeedbackContext) :
    (overrideHighLoad c ctx).total_decisions = c.total_decisions := by
  unfold overrideHighLoad
  split_ifs <;> rfl

theorem overrideHighLoad_total_accepts (c : Csp) (ctx : FeedbackContext) :
    (overrideHighLoad c ctx).total_accepts = c.total_accepts := by
  unfold overrideHighLoad
  split_ifs <;> rfl

theorem overrideHighLoad_total_overrides (c : Csp) (ctx : FeedbackContext) :
    (overrideHighLoad c ctx).total_overrides = c.total_overrides := by
  unfold overrideHighLoad
  split_ifs <;> rfl

theorem overrideHighLoad_total_ignores (c : Csp) (ctx : FeedbackContext) :
    (overrideHighLoad c ctx).total_ignores = c.total_ignores := by
  unfold overrideHighLoad
  split_ifs <;> rfl

theorem overrideHighLoad_consecutive_accepts (c : Csp) (ctx : FeedbackContext) :
    (overrideHighLoad c ctx).consecutive_accepts = c.consecutive_accepts := by
  unfold overrideHighLoad
  split_ifs <;> rfl

theorem overrideHighLoad_consecutive_overrides (c : Csp) (ctx : FeedbackContext) :
    (overrideHighLoad c ctx).consecutive_overrides = c.consecutive_overrides := by
  unfold overrideHighLoad
  split_ifs <;> rfl

theorem overrideHighLoad_consecutive_ignores (c : Csp) (ctx : FeedbackContext) :
    (overrideHighLoad c ctx).consecutive_ignores = c.consecutive_ignores := by
  unfold overrideHighLoad
  split_ifs <;> rfl

theorem overrideHighLoad_preferred_alternatives (c : Csp) (ctx : FeedbackContext) :
    (overrideHighLoad c ctx).preferred_alternatives = c.preferred_alternatives := by
  unfold overrideHighLoad
  split_ifs <;> rfl

theorem overrideHighLoad_needs_recalibration (c : Csp) (ctx : FeedbackContext) :
    (overrideHighLoad c ctx).needs_recalibration = c.needs_recalibration := by
  unfold overrideHighLoad
  split_ifs <;> rfl

theorem acceptConfidence_total_decisions (c : Csp) :
    (acceptConfidence c).total_decisions = c.total_decisions := by
  unfold acceptConfidence
  split_ifs <;> rfl

theorem acceptConfidence_total_accepts (c : Csp) :
    (acceptConfidence c).total_accepts = c.total_accepts := by
  unfold acceptConfidence
  split_ifs <;> rfl

theorem acceptConfidence_total_overrides (c : Csp) :
    (acceptConfidence c).total_overrides = c.total_overrides := by
  unfold acceptConfidence
  split_ifs <;> rfl

theorem acceptConfidence_total_ignores (c : Csp) :
    (acceptConfidence c).total_ignores = c.total_ignores := by
  unfold acceptConfidence
  split_ifs <;> rfl

theorem acceptConfidence_consecutive_accepts (c : Csp) :
    (acceptConfidence c).consecutive_accepts = c.consecutive_accepts := by
  unfold acceptConfidence
  split_ifs <;> rfl

theorem acceptConfidence_consecutive_overrides (c : Csp) :
    (acceptConfidence c).consecutive_overrides = c.consecutive_overrides := by
  unfold acceptConfidence
  split_ifs <;> rfl

theorem acceptConfidence_consecutive_ignores (c : Csp) :
    (acceptConfidence c).consecutive_ignores = c.consecutive_ignores := by
  unfold acceptConfidence
  split_ifs <;> rfl

theorem acceptConfidence_preferred_alternatives (c : Csp) :
    (acceptConfidence c).preferred_alternatives = c.preferred_alternatives := by
  unfold acceptConfidence
  split_ifs <;> rfl

theorem acceptConfidence_needs_recalibration (c : Csp) :
    (acceptConfidence c).needs_recalibration = c.needs_recalibration := by
  unfold acceptConfidence
  split_ifs <;> rfl

theorem overrideConfidence_total_decisions (c : Csp) :
    (overrideConfidence c).total_decisions = c.total_decisions := by
  unfold overrideConfidence
  split_ifs <;> rfl

theorem overrideConfidence_total_accepts (c : Csp) :
    (overrideConfidence c).total_accepts = c.total_accepts := by
  unfold overrideConfidence
  split_ifs <;> rfl

theorem overrideConfidence_total_overrides (c : Csp) :
    (overrideConfidence c).total_overrides = c.total_overrides := by
  unfold overrideConfidence
  split_ifs <;> rfl

theorem overrideConfidence_total_ignores (c : Csp) :
    (overrideConfidence c).total_ignores = c.total_ignores := by
  unfold overrideConfidence
  split_ifs <;> rfl

theorem overrideConfidence_consecutive_accepts (c : Csp) :
    (overrideConfidence c).consecutive_accepts = c.consecutive_accepts := by
  unfold overrideConfidence
  split_ifs <;> rfl

theorem overrideConfidence_consecutive_overrides (c : Csp) :
    (overrideConfidence c).consecutive_overrides = c.consecutive_overrides := by
  unfold overrideConfidence
  split_ifs <;> rfl

theorem overrideConfidence_consecutive_ignores (c : Csp) :
    (overrideConfidence c).consecutive_ignores = c.consecutive_ignores := by
  unfold overrideConfidence
  split_ifs <;> rfl

theorem overrideConfidence_preferred_alternatives (c : Csp) :
    (overrideConfidence c).preferred_alternatives = c.preferred_alternatives := by
  unfold overrideConfidence
  split_ifs <;> rfl

theorem overrideConfidence_needs_recalibration (c : Csp) :
    (overrideConfidence c).needs_recalibration = c.needs_recalibration := by
  unfold overrideConfidence
  split_ifs <;> rfl

theorem updateRates_total_decisions (c : Csp) :
    (updateRates c).total_decisions = c.total_decisions := by
  unfold updateRates
  split_ifs <;> rfl

theorem updateRates_total_accepts (c : Csp) :
    (updateRates c).total_accepts = c.total_accepts := by
  unfold updateRates
  split_ifs <;> rfl

theorem updateRates_total_overrides (c : Csp) :
    (updateRates c).total_overrides = c.total_overrides := by
  unfold updateRates
  split_ifs <;> rfl

theorem updateRates_total_ignores (c : Csp) :
    (updateRates c).total_ignores = c.total_ignores := by
  unfold updateRates
  split_ifs <;> rfl

theorem updateRates_consecutive_accepts (c : Csp) :
    (updateRates c).consecutive_accepts = c.consecutive_accepts := by
  unfold updateRates
  split_ifs <;> rfl

theorem updateRates_consecutive_overrides (c : Csp) :
    (updateRates c).consecutive_overrides = c.consecutive_overrides := by
  unfold updateRates
  split_ifs <;> rfl

theorem updateRates_consecutive_ignores (c : Csp) :
    (updateRates c).consecutive_ignores = c.consecutive_ignores := by
  unfold updateRates
  split_ifs <;> rfl

theorem updateRates_preferred_alternatives (c : Csp) :
    (updateRates c).preferred_alternatives = c.preferred_alternatives := by
  unfold updateRates
  split_ifs <;> rfl

theorem updateRates_needs_recalibration (c : Csp) :
    (updateRates c).needs_recalibration = c.needs_recalibration := by
  unfold updateRates
  split_ifs <;> rfl

theorem acceptStreak_total_decisions (c : Csp) :
    (acceptStreak c).total_decisions = c.total_decisions := rfl

theorem acceptStreak_total_accepts (c : Csp) :
    (acceptStreak c).total_accepts = c.total_accepts := rfl

theorem acceptStreak_total_overrides (c : Csp) :
    (acceptStreak c).total_overrides = c.total_overrides := rfl

theorem acceptStreak_total_ignores (c : Csp) :
    (acceptStreak c).total_ignores = c.total_ignores := rfl

theorem acceptStreak_consecutive_ignores (c : Csp) :
    (acceptStreak c).consecutive_ignores = c.consecutive_ignores := rfl

theorem acceptStreak_preferred_alternatives (c : Csp) :
    (acceptStreak c).preferred_alternatives = c.preferred_alternatives := rfl

theorem acceptStreak_needs_recalibration (c : Csp) :
    (acceptStreak c).needs_recalibration = c.needs_recalibration := rfl

theorem acceptStreak_consecutive_accepts (c : Csp) :
    (acceptStreak c).consecutive_accepts = c.consecutive_accepts + 1 := rfl

theorem acceptStreak_consecutive_overrides (c : Csp) :
    (acceptStreak c).consecutive_overrides = 0 := rfl

theorem overrideStreak_total_decisions (c : Csp) :
    (overrideStreak c).total_decisions = c.total_decisions := rfl

theorem overrideStreak_total_accepts (c : Csp) :
    (overrideStreak c).total_accepts = c.total_accepts := rfl

theorem overrideStreak_total_overrides (c : Csp) :
    (overrideStreak c).total_overrides = c.total_overrides := rfl

theorem overrideStreak_total_ignores (c : Csp) :
    (overrideStreak c).total_ignores = c.total_ignores := rfl

theorem overrideStreak_consecutive_ignores (c : Csp) :
    (overrideStreak c).consecutive_ignores = c.consecutive_ignores := rfl

theorem overrideStreak_preferred_alternatives (c : Csp) :
    (overrideStreak c).preferred_alternatives = c.preferred_alternatives := rfl

theorem overrideStreak_needs_recalibration (c : Csp) :
    (overrideStreak c).needs_recalibration = c.needs_recalibration := rfl

theorem overrideStreak_consecutive_overrides (c : Csp) :
    (overrideStreak c).consecutive_overrides = c.consecutive_overrides + 1 := rfl

theorem overrideStreak_consecutive_accepts (c : Csp) :
    (overrideStreak c).consecutive_accepts = 0 := rfl

theorem ignoreStreak_total_decisions (c : Csp) :
    (ignoreStreak c).total_decisions = c.total_decisions := rfl

theorem ignoreStreak_total_accepts (c : Csp) :
    (ignoreStreak c).total_accepts = c.total_accepts := rfl

theorem ignoreStreak_total_overrides (c : Csp) :
    (ignoreStreak c).total_overrides = c.total_overrides := rfl

theorem ignoreStreak_total_ignores (c : Csp) :
    (ignoreStreak c).total_ignores = c.total_ignores := rfl

theorem ignoreStreak_consecutive_accepts (c : Csp) :
    (ignoreStreak c).consecutive_accepts = c.consecutive_accepts := rfl

theorem ignoreStreak_consecutive_overrides (c : Csp) :
    (ignoreStreak c).consecutive_overrides = c.consecutive_overrides := rfl

theorem ignoreStreak_preferred_alternatives (c : Csp) :
    (ignoreStreak c).preferred_alternatives = c.preferred_alternatives := rfl

theorem ignoreStreak_needs_recalibration (c : Csp) :
    (ignoreStreak c).needs_recalibration = c.needs_recalibration := rfl

theorem ignoreStreak_consecutive_ignores (c : Csp) :
    (ignoreStreak c).consecutive_ignores = c.consecutive_ignores + 1 := rfl

theorem ignoreRecalibration_total_decisions (c : Csp) :
    (ignoreRecalibration c).total_decisions = c.total_decisions := by
  unfold ignoreRecalibration
  split_ifs <;> rfl

theorem ignoreRecalibration_total_accepts (c : Csp) :
    (ignoreRecalibration c).total_accepts = c.total_accepts := by
  unfold ignoreRecalibration
  split_ifs <;> rfl

theorem ignoreRecalibration_total_overrides (c : Csp) :
    (ignoreRecalibration c).total_overrides = c.total_overrides := by
  unfold ignoreRecalibration
  split_ifs <;> rfl

theorem ignoreRecalibration_total_ignores (c : Csp) :
    (ignoreRecalibration c).total_ignores = c.total_ignores := by
  unfold ignoreRecalibration
  split_ifs <;> rfl

theorem ignoreRecalibration_consecutive_accepts (c : Csp) :
    (ignoreRecalibration c).consecutive_accepts = c.consecutive_accepts := by
  unfold ignoreRecalibration
  split_ifs <;> rfl

theorem ignoreRecalibration_consecutive_overrides (c : Csp) :
    (ignoreRecalibration c).consecutive_overrides = c.consecutive_overrides := by
  unfold ignoreRecalibration
  split_ifs <;> rfl

theorem ignoreRecalibration_consecutive_ignores (c : Csp) :
    (ignoreRecalibration c).consecutive_ignores = c.consecutive_ignores := by
  unfold ignoreRecalibration
  split_ifs <;> rfl

theorem ignoreRecalibration_preferred_alternatives (c : Csp) :
    (ignoreRecalibration c).preferred_alternatives = c.preferred_alternatives := by
  unfold ignoreRecalibration
  split_ifs <;> rfl

theorem ignoreRecalibration_needs_recalibration (c : Csp) :
    (ignoreRecalibration c).needs_recalibration =
      (if 5 ≤ c.consecutive_ignores then true else c.needs_recalibration) := by
  unfold ignoreRecalibration
  split_ifs <;> rfl

theorem overrideAlternative_total_decisions (c : Csp) (ctx : FeedbackContext) (hr : ℕ) :
    (overrideAlternative c ctx hr).total_decisions = c.total_decisions := by
  unfold overrideAlternative
  cases ctx.chosen_alternative <;> dsimp only <;>
    first | rfl | (split_ifs <;> rfl)

theorem overrideAlternative_total_accepts (c : Csp) (ctx : FeedbackContext) (hr : ℕ) :
    (overrideAlternative c ctx hr).total_accepts = c.total_accepts := by
  unfold overrideAlternative
  cases ctx.chosen_alternative <;> dsimp only <;>
    first | rfl | (split_ifs <;> rfl)

theorem overrideAlternative_total_overrides (c : Csp) (ctx : FeedbackContext) (hr : ℕ) :
    (overrideAlternative c ctx hr).total_overrides = c.total_overrides := by
  unfold overrideAlternative
  cases ctx.chosen_alternative <;> dsimp only <;>
    first | rfl | (split_ifs <;> rfl)

theorem overrideAlternative_total_ignores (c : Csp) (ctx : FeedbackContext) (hr : ℕ) :
    (overrideAlternative c ctx hr).total_ignores = c.total_ignores := by
  unfold overrideAlternative
  cases ctx.chosen_alternative <;> dsimp only <;>
    first | rfl | (split_ifs <;> rfl)

theorem overrideAlternative_consecutive_accepts (c : Csp) (ctx : FeedbackContext) (hr : ℕ) :
    (overrideAlternative c ctx hr).consecutive_accepts = c.consecutive_accepts := by
  unfold overrideAlternative
  cases ctx.chosen_alternative <;> dsimp only <;>
    first | rfl | (split_ifs <;> rfl)

theorem overrideAlternative_consecutive_overrides (c : Csp) (ctx : FeedbackContext) (hr : ℕ) :
    (overrideAlternative c ctx hr).consecutive_overrides = c.consecutive_overrides := by
  unfold overrideAlternative
  cases ctx.chosen_alternative <;> dsimp only <;>
    first | rfl | (split_ifs <;> rfl)

theorem overrideAlternative_consecutive_ignores (c : Csp) (ctx : FeedbackContext) (hr : ℕ) :
    (overrideAlternative c ctx hr).consecutive_ignores = c.consecutive_ignores := by
  unfold overrideAlternative
  cases ctx.chosen_alternative <;> dsimp only <;>
    first | rfl | (split_ifs <;> rfl)

theorem overrideAlternative_needs_recalibration (c : Csp) (ctx : FeedbackContext) (hr : ℕ) :
    (overrideAlternative c ctx hr).needs_recalibration = c.needs_recalibration := by
  unfold overrideAlternative
  cases ctx.chosen_alternative <;> dsimp only <;>
    first | rfl | (split_ifs <;> rfl)

theorem overrideAlternative_alts_le (c : Csp) (ctx : FeedbackContext) (hr : ℕ)
    (hl : c.preferred_alternatives.length ≤ 20) :
    (overrideAlternative c ctx hr).preferred_alternatives.length ≤ 20 := by
  unfold overrideAlternative
  cases ctx.chosen_alternative with
  | none => exact hl
  | some alt =>
    dsimp only
    split_ifs with h1 h2
    · simp only [List.length_drop]
      omega
    · simp only [List.length_append, List.length_cons, List.length_nil] at h2 ⊢
      omega
    · exact hl

theorem applyAcceptLearning_total_decisions (c : Csp) (ctx : FeedbackContext) (hr : ℕ) :
    (applyAcceptLearning c ctx hr).total_decisions = c.total_decisions := by
  unfold applyAcceptLearning
  rw [acceptConfidence_total_decisions, acceptStreak_total_decisions,
    acceptEffort_total_decisions, acceptBand_total_decisions]

theorem applyAcceptLearning_total_accepts (c : Csp) (ctx : FeedbackContext) (hr : ℕ) :
    (applyAcceptLearning c ctx hr).total_accepts = c.total_accepts := by
  unfold applyAcceptLearning
  rw [acceptConfidence_total_accepts, acceptStreak_total_accepts,
    acceptEffort_total_accepts, acceptBand_total_accepts]

theorem applyAcceptLearning_total_overrides (c : Csp) (ctx : FeedbackContext) (hr : ℕ) :
    (applyAcceptLearning c ctx hr).total_overrides = c.total_overrides := by
  unfold applyAcceptLearning
  rw [acceptConfidence_total_overrides, acceptStreak_total_overrides,
    acceptEffort_total_overrides, acceptBand_total_overrides]

theorem applyAcceptLearning_total_ignores (c : Csp) (ctx : FeedbackContext) (hr : ℕ) :
    (applyAcceptLearning c ctx hr).total_ignores = c.total_ignores := by
  unfold applyAcceptLearning
  rw [acceptConfidence_total_ignores, acceptStreak_total_ignores,
    acceptEffort_total_ignores, acceptBand_total_ignores]

theorem applyAcceptLearning_consecutive_ignores (c : Csp) (ctx : FeedbackContext) (hr : ℕ) :
    (applyAcceptLearning c ctx hr).consecutive_ignores = c.consecutive_ignores := by
  unfold applyAcceptLearning
  rw [acceptConfidence_consecutive_ignores, acceptStreak_consecutive_ignores,
    acceptEffort_consecutive_ignores, acceptBand_consecutive_ignores]

theorem applyAcceptLearning_preferred_alternatives (c : Csp) (ctx : FeedbackContext) (hr : ℕ) :
    (applyAcceptLearning c ctx hr).preferred_alternatives = c.preferred_alternatives := by
  unfold applyAcceptLearning
  rw [acceptConfidence_preferred_alternatives, acceptStreak_preferred_alternatives,
    acceptEffort_preferred_alternatives, acceptBand_preferred_alternatives]

theorem applyAcceptLearning_needs_recalibration (c : Csp) (ctx : FeedbackContext) (hr : ℕ) :
    (applyAcceptLearning c ctx hr).needs_recalibration = c.needs_recalibration := by
  unfold applyAcceptLearning
  rw [acceptConfidence_needs_recalibration, acceptStreak_needs_recalibration,
    acceptEffort_needs_recalibration, acceptBand_needs_recalibration]

theorem applyOverrideLearning_total_decisions (c : Csp) (ctx : FeedbackContext) (hr : ℕ) :
    (applyOverrideLearning c ctx hr).total_decisions = c.total_decisions := by
  unfold applyOverrideLearning
  rw [overrideAlternative_total_decisions, overrideConfidence_total_decisions,
    overrideStreak_total_decisions, overrideHighLoad_total_decisions,
    overrideBand_total_decisions]

theorem applyOverrideLearning_total_accepts (c : Csp) (ctx : FeedbackContext) (hr : ℕ) :
    (applyOverrideLearning c ctx hr).total_accepts = c.total_accepts := by
  unfold applyOverrideLearning
  rw [overrideAlternative_total_accepts, overrideConfidence_total_accepts,
    overrideStreak_total_accepts, overrideHighLoad_total_accepts,
    overrideBand_total_accepts]

theorem applyOverrideLearning_total_overrides (c : Csp) (ctx : FeedbackContext) (hr : ℕ) :
    (applyOverrideLearning c ctx hr).total_overrides = c.total_overrides := by
  unfold applyOverrideLearning
  rw [overrideAlternative_total_overrides, overrideConfidence_total_overrides,
    overrideStreak_total_overrides, overrideHighLoad_total_overrides,
    overrideBand_total_overrides]

theorem applyOverrideLearning_total_ignores (c : Csp) (ctx : FeedbackContext) (hr : ℕ) :
    (applyOverrideLearning c ctx hr).total_ignores = c.total_ignores := by
  unfold applyOverrideLearning
  rw [overrideAlternative_total_ignores, overrideConfidence_total_ignores,
    overrideStreak_total_ignores, overrideHighLoad_total_ignores,
    overrideBand_total_ignores]

theorem applyOverrideLearning_consecutive_ignores (c : Csp) (ctx : FeedbackContext) (hr : ℕ) :
    (applyOverrideLearning c ctx hr).consecutive_ignores = c.consecutive_ignores := by
  unfold applyOverrideLearning
  rw [overrideAlternative_consecutive_ignores, overrideConfidence_consecutive_ignores,
    overrideStreak_consecutive_ignores, overrideHighLoad_consecutive_ignores,
    overrideBand_consecutive_ignores]

theorem applyOverrideLearning_needs_recalibration (c : Csp) (ctx : FeedbackContext) (hr : ℕ) :
    (applyOverrideLearning c ctx hr).needs_recalibration = c.needs_recalibration := by
  unfold applyOverrideLearning
  rw [overrideAlternative_needs_recalibration, overrideConfidence_needs_recalibration,
    overrideStreak_needs_recalibration, overrideHighLoad_needs_recalibration,
    overrideBand_needs_recalibration]

theorem applyOverrideLearning_alts_le (c : Csp) (ctx : FeedbackContext) (hr : ℕ)
    (hl : c.preferred_alternatives.length ≤ 20) :
    (applyOverrideLearning c ctx hr).preferred_alternatives.length ≤ 20 := by
  unfold applyOverrideLearning
  apply overrideAlternative_alts_le
  rw [overrideConfidence_preferred_alternatives, overrideStreak_preferred_alternatives,
    overrideHighLoad_preferred_alternatives, overrideBand_preferred_alternatives]
  exact hl

theorem applyIgnoreLearning_total_decisions (c : Csp) (ctx : FeedbackContext) (hr : ℕ) :
    (applyIgnoreLearning c ctx hr).total_decisions = c.total_decisions := by
  unfold applyIgnoreLearning
  rw [ignoreRecalibration_total_decisions, ignoreStreak_total_decisions,
    ignoreBand_total_decisions]

theorem applyIgnoreLearning_total_accepts (c : Csp) (ctx : FeedbackContext) (hr : ℕ) :
    (applyIgnoreLearning c ctx hr).total_accepts = c.total_accepts := by
  unfold applyIgnoreLearning
  rw [ignoreRecalibration_total_accepts, ignoreStreak_total_accepts,
    ignoreBand_total_accepts]

theorem applyIgnoreLearning_total_overrides (c : Csp) (ctx : FeedbackContext) (hr : ℕ) :
    (applyIgnoreLearning c ctx hr).total_overrides = c.total_overrides := by
  unfold applyIgnoreLearning
  rw [ignoreRecalibration_total_overrides, ignoreStreak_total_overrides,
    ignoreBand_total_overrides]

theorem applyIgnoreLearning_total_ignores (c : Csp) (ctx : FeedbackContext) (hr : ℕ) :
    (applyIgnoreLearning c ctx hr).total_ignores = c.total_ignores := by
  unfold applyIgnoreLearning
  rw [ignoreRecalibration_total_ignores, ignoreStreak_total_ignores,
    ignoreBand_total_ignores]

theorem applyIgnoreLearning_consecutive_accepts (c : Csp) (ctx : FeedbackContext) (hr : ℕ) :
    (applyIgnoreLearning c ctx hr).consecutive_accepts = c.consecutive_accepts := by
  unfold applyIgnoreLearning
  rw [ignoreRecalibration_consecutive_accepts, ignoreStreak_consecutive_accepts,
    ignoreBand_consecutive_accepts]

theorem applyIgnoreLearning_consecutive_overrides (c : Csp) (ctx : FeedbackContext) (hr : ℕ) :
    (applyIgnoreLearning c ctx hr).consecutive_overrides = c.consecutive_overrides := by
  unfold applyIgnoreLearning
  rw [ignoreRecalibration_consecutive_overrides, ignoreStreak_consecutive_overrides,
    ignoreBand_consecutive_overrides]

theorem applyIgnoreLearning_preferred_alternatives (c : Csp) (ctx : FeedbackContext) (hr : ℕ) :
    (applyIgnoreLearning c ctx hr).preferred_alternatives = c.preferred_alternatives := by
  unfold applyIgnoreLearning
  rw [ignoreRecalibration_preferred_alternatives, ignoreStreak_preferred_alternatives,
    ignoreBand_preferred_alternatives]

theorem applyIgnoreLearning_consecutive_ignores (c : Csp) (ctx : FeedbackContext) (hr : ℕ) :
    (applyIgnoreLearning c ctx hr).consecutive_ignores = c.consecutive_ignores + 1 := by
  unfold applyIgnoreLearning
  rw [ignoreRecalibration_consecutive_ignores, ignoreStreak_consecutive_ignores,
    ignoreBand_consecutive_ignores]

theorem applyIgnoreLearning_needs_recalibration (c : Csp) (ctx : FeedbackContext) (hr : ℕ) :
    (applyIgnoreLearning c ctx hr).needs_recalibration =
      (if 5 ≤ c.consecutive_ignores + 1 then true else c.needs_recalibration) := by
  unfold applyIgnoreLearning
  rw [ignoreRecalibration_needs_recalibration, ignoreStreak_consecutive_ignores,
    ignoreBand_consecutive_ignores, ignoreStreak_needs_recalibration,
    ignoreBand_needs_recalibration]

theorem updateCspPure_total_decisions (c : Csp) (a : String) (ctx : FeedbackContext)
    (hr : ℕ) (now : String) :
    (updateCspPure c a ctx hr now).total_decisions = c.total_decisions + 1 := by
  unfold updateCspPure
  dsimp only
  rw [updateRates_total_decisions]
  unfold dispatchLearning
  split_ifs with h1 h2 h3
  · rw [applyAcceptLearning_total_decisions]
    all_goals rfl
  · rw [applyOverrideLearning_total_decisions]
    all_goals rfl
  · rw [applyIgnoreLearning_total_decisions]
    all_goals rfl
  · rfl

theorem updateCspPure_consecutive_ignores (c : Csp) (a : String) (ctx : FeedbackContext)
    (hr : ℕ) (now : String) :
    (updateCspPure c a ctx hr now).consecutive_ignores =
      c.consecutive_ignores + (if a = "ignore" then 1 else 0) := by
  unfold updateCspPure
  dsimp only
  rw [updateRates_consecutive_ignores]
  unfold dispatchLearning
  by_cases h1 : a = "accept"
  · subst h1
    rw [if_pos rfl, applyAcceptLearning_consecutive_ignores, if_neg (by decide)]
    all_goals rfl
  · rw [if_neg h1]
    by_cases h2 : a = "override"
    · subst h2
      rw [if_pos rfl, applyOverrideLearning_consecutive_ignores, if_neg (by decide)]
      all_goals rfl
    · rw [if_neg h2]
      by_cases h3 : a = "ignore"
      · subst h3
        rw [if_pos rfl, applyIgnoreLearning_consecutive_ignores, if_pos rfl]
        all_goals rfl
      · rw [if_neg h3, if_neg h3]
        all_goals rfl

theorem updateCspPure_needs_recalibration (c : Csp) (a : String) (ctx : FeedbackContext)
    (hr : ℕ) (now : String) :
    (updateCspPure c a ctx hr now).needs_recalibration =
      (if a = "ignore" then
        (if 5 ≤ c.consecutive_ignores + 1 then true else c.needs_recalibration)
       else c.needs_recalibration) := by
  unfold updateCspPure
  dsimp only
  rw [updateRates_needs_recalibration]
  unfold dispatchLearning
  by_cases h1 : a = "accept"
  · subst h1
    rw [if_pos rfl, applyAcceptLearning_needs_recalibration, if_neg (by decide)]
    all_goals rfl
  · rw [if_neg h1]
    by_cases h2 : a = "override"
    · subst h2
      rw [if_pos rfl, applyOverrideLearning_needs_recalibration, if_neg (by decide)]
      all_goals rfl
    · rw [if_neg h2]
      by_cases h3 : a = "ignore"
      · subst h3
        rw [if_pos rfl, applyIgnoreLearning_needs_recalibration, if_pos rfl]
        all_goals rfl
      · rw [if_neg h3, if_neg h3]
        all_goals rfl

theorem updateCspPure_flag_mono (c : Csp) (a : String) (ctx : FeedbackContext)
    (hr : ℕ) (now : String) (hf : c.needs_recalibration = true) :
    (updateCspPure c a ctx hr now).needs_recalibration = true := by
  rw [updateCspPure_needs_recalibration]
  split_ifs <;> first | rfl | exact hf

theorem updateCspPure_accept_counters (c : Csp) (ctx : FeedbackContext)
    (hr : ℕ) (now : String) :
    (updateCspPure c "accept" ctx hr now).total_accepts = c.total_accepts + 1 ∧
    (updateCspPure c "accept" ctx hr now).total_overrides = c.total_overrides ∧
    (updateCspPure c "accept" ctx hr now).total_ignores = c.total_ignores := by
  unfold updateCspPure dispatchLearning
  dsimp only
  rw [if_pos (rfl : ("accept" : String) = "accept")]
  refine ⟨?_, ?_, ?_⟩
  · rw [updateRates_total_accepts, applyAcceptLearning_total_accepts]
    all_goals rfl
  · rw [updateRates_total_overrides, applyAcceptLearning_total_overrides]
    all_goals rfl
  · rw [updateRates_total_ignores, applyAcceptLearning_total_ignores]
    all_goals rfl

theorem updateCspPure_override_counters (c : Csp) (ctx : FeedbackContext)
    (hr : ℕ) (now : String) :
    (updateCspPure c "override" ctx hr now).total_overrides = c.total_overrides + 1 ∧
    (updateCspPure c "override" ctx hr now).total_accepts = c.total_accepts ∧
    (updateCspPure c "override" ctx hr now).total_ignores = c.total_ignores := by
  unfold updateCspPure dispatchLearning
  dsimp only
  rw [if_neg (by decide : ¬("override" : String) = "accept"),
    if_pos (rfl : ("override" : String) = "override")]
  refine ⟨?_, ?_, ?_⟩
  · rw [updateRates_total_overrides, applyOverrideLearning_total_overrides]
    all_goals rfl
  · rw [updateRates_total_accepts, applyOverrideLearning_total_accepts]
    all_goals rfl
  · rw [updateRates_total_ignores, applyOverrideLearning_total_ignores]
    all_goals rfl

theorem updateCspPure_ignore_counters (c : Csp) (ctx : FeedbackContext)
    (hr : ℕ) (now : String) :
    (updateCspPure c "ignore" ctx hr now).total_ignores = c.total_ignores + 1 ∧
    (updateCspPure c "ignore" ctx hr now).total_accepts = c.total_accepts ∧
    (updateCspPure c "ignore" ctx hr now).total_overrides = c.total_overrides := by
  unfold updateCspPure dispatchLearning
  dsimp only
  rw [if_neg (by decide : ¬("ignore" : String) = "accept"),
    if_neg (by decide : ¬("ignore" : String) = "override"),
    if_pos (rfl : ("ignore" : String) = "ignore")]
  refine ⟨?_, ?_, ?_⟩
  · rw [updateRates_total_ignores, applyIgnoreLearning_total_ignores]
    all_goals rfl
  · rw [updateRates_total_accepts, applyIgnoreLearning_total_accepts]
    all_goals rfl
  · rw [updateRates_total_overrides, applyIgnoreLearning_total_overrides]
    all_goals rfl

theorem updateCspPure_ignore_streaks (c : Csp) (ctx : FeedbackContext)
    (hr : ℕ) (now : String) :
    (updateCspPure c "ignore" ctx hr now).consecutive_accepts = c.consecutive_accepts ∧
    (updateCspPure c "ignore" ctx hr now).consecutive_overrides = c.consecutive_overrides := by
  unfold updateCspPure dispatchLearning
  dsimp only
  rw [if_neg (by decide : ¬("ignore" : String) = "accept"),
    if_neg (by decide : ¬("ignore" : String) = "override"),
    if_pos (rfl : ("ignore" : String) = "ignore")]
  refine ⟨?_, ?_⟩
  · rw [updateRates_consecutive_accepts, applyIgnoreLearning_consecutive_accepts]
    all_goals rfl
  · rw [updateRates_consecutive_overrides, applyIgnoreLearning_consecutive_overrides]
    all_goals rfl

theorem updateCspPure_alts_le (c : Csp) (a : String) (ctx : FeedbackContext)
    (hr : ℕ) (now : String) (hl : c.preferred_alternatives.length ≤ 20) :
    (updateCspPure c a ctx hr now).preferred_alternatives.length ≤ 20 := by
  unfold updateCspPure
  dsimp only
  rw [updateRates_preferred_alternatives]
  unfold dispatchLearning
  split_ifs with h1 h2 h3
  · rw [applyAcceptLearning_preferred_alternatives]
    exact hl
  · exact applyOverrideLearning_alts_le _ ctx hr hl
  · rw [applyIgnoreLearning_preferred_alternatives]
    exact hl
  · exact hl

theorem countIgnores_cons (e : FeedbackEv) (evs : List FeedbackEv) :
    countIgnores (e :: evs) = (if e.action = "ignore" then 1 else 0) + countIgnores evs := by
  by_cases h : e.action = "ignore" <;> simp [countIgnores, h] <;> omega

theorem applyFeedbackSeq_cons (c : Csp) (e : FeedbackEv) (evs : List FeedbackEv) :
    applyFeedbackSeq c (e :: evs) =
      applyFeedbackSeq (updateCspPure c e.action e.context e.hour e.now) evs := rfl

theorem applyFeedbackSeq_weights (evs : List FeedbackEv) (c : Csp) (hw : WeightsIn01 c) :
    WeightsIn01 (applyFeedbackSeq c evs) := by
  induction evs generalizing c with
  | nil => exact hw
  | cons e es ih =>
    rw [applyFeedbackSeq_cons]
    exact ih _ (updateCspPure_weights _ _ _ _ _ hw)

theorem applyFeedbackSeq_alts_le (evs : List FeedbackEv) (c : Csp)
    (hl : c.preferred_alternatives.length ≤ 20) :
    (applyFeedbackSeq c evs).preferred_alternatives.length ≤ 20 := by
  induction evs generalizing c with
  | nil => exact hl
  | cons e es ih =>
    rw [applyFeedbackSeq_cons]
    exact ih _ (updateCspPure_alts_le _ _ _ _ _ hl)

theorem applyFeedbackSeq_flag_mono (evs : List FeedbackEv) (c : Csp)
    (hf : c.needs_recalibration = true) :
    (applyFeedbackSeq c evs).needs_recalibration = true := by
  induction evs generalizing c with
  | nil => exact hf
  | cons e es ih =>
    rw [applyFeedbackSeq_cons]
    exact ih _ (updateCspPure_flag_mono _ _ _ _ _ hf)

theorem applyFeedbackSeq_recalibration (evs : List FeedbackEv) (c : Csp)
    (h1 : 1 ≤ countIgnores evs)
    (h5 : 5 ≤ c.consecutive_ignores + countIgnores evs) :
    (applyFeedbackSeq c evs).needs_recalibration = true := by
  induction evs generalizing c with
  | nil => simp [countIgnores] at h1
  | cons e es ih =>
    rw [applyFeedbackSeq_cons]
    rw [countIgnores_cons] at h1 h5
    by_cases he : e.action = "ignore"
    · rw [if_pos he] at h1 h5
      by_cases hn : 1 ≤ countIgnores es
      · apply ih _ hn
        rw [updateCspPure_consecutive_ignores, if_pos he]
        omega
      · have hz : countIgnores es = 0 := by omega
        apply applyFeedbackSeq_flag_mono
        rw [updateCspPure_needs_recalibration, if_pos he, if_pos (by omega)]
    · rw [if_neg he] at h1 h5
      apply ih _ (by omega)
      rw [updateCspPure_consecutive_ignores, if_neg he]
      omega

/-- C2. After any sequence of feedback updates (accept, override or ignore
in any order, at any hours and with any contexts), starting from any vector
whose weight fields are within [0, 1] and whose rolling alternatives list
holds at most 20 entries (as every vector in the lifecycle does, starting
from the default's empty list), every weight field stays within [0, 1] and
`preferred_alternatives` never exceeds length 20 (the oldest entry is
evicted first, see `overrideAlternative`). -/
theorem C2_weights_clamped_alternatives_bounded (c : Csp) (evs : List FeedbackEv)
    (hw : WeightsIn01 c) (hl : c.preferred_alternatives.length ≤ 20) :
    WeightsIn01 (applyFeedbackSeq c evs) ∧
    (applyFeedbackSeq c evs).preferred_alternatives.length ≤ 20 :=
  ⟨applyFeedbackSeq_weights evs c hw, applyFeedbackSeq_alts_le evs c hl⟩

attribute [local semireducible] Rat.mul Rat.inv Rat.add Rat.sub in
/-- C2 witness: the default vector run through a concrete accept, override
(with a chosen alternative) and ignore. -/
theorem C2_weights_clamped_alternatives_bounded_witness :
    WeightsIn01 getDefaultCsp ∧
    getDefaultCsp.preferred_alternatives.length ≤ 20 ∧
    (WeightsIn01 (applyFeedbackSeq getDefaultCsp c2Events) ∧
     (applyFeedbackSeq getDefaultCsp c2Events).preferred_alternatives.length ≤ 20) :=
  ⟨by unfold WeightsIn01; decide, by decide,
   C2_weights_clamped_alternatives_bounded getDefaultCsp c2Events
     (by unfold WeightsIn01; decide) (by decide)⟩

/-- C3. For every feedback update with a valid action, the counter-sum
invariant `total_decisions = total_accepts + total_overrides + total_ignores`
is preserved, `total_decisions` grows by exactly 1, and exactly the
action-specific counter grows by exactly 1 (so all four counters are
monotonically non-decreasing across updates). -/
theorem C3_counter_sum_invariant_and_increments (c : Csp) (a : String)
    (ctx : FeedbackContext) (hr : ℕ) (now : String)
    (hv : a = "accept" ∨ a = "override" ∨ a = "ignore") :
    (c.total_decisions = c.total_accepts + c.total_overrides + c.total_ignores →
      (updateCspPure c a ctx hr now).total_decisions =
        (updateCspPure c a ctx hr now).total_accepts +
        (updateCspPure c a ctx hr now).total_overrides +
        (updateCspPure c a ctx hr now).total_ignores) ∧
    (updateCspPure c a ctx hr now).total_decisions = c.total_decisions + 1 ∧
    (a = "accept" →
      (updateCspPure c a ctx hr now).total_accepts = c.total_accepts + 1 ∧
      (updateCspPure c a ctx hr now).total_overrides = c.total_overrides ∧
      (updateCspPure c a ctx hr now).total_ignores = c.total_ignores) ∧
    (a = "override" →
      (updateCspPure c a ctx hr now).total_overrides = c.total_overrides + 1 ∧
      (updateCspPure c a ctx hr now).total_accepts = c.total_accepts ∧
      (updateCspPure c a ctx hr now).total_ignores = c.total_ignores) ∧
    (a = "ignore" →
      (updateCspPure c a ctx hr now).total_ignores = c.total_ignores + 1 ∧
      (updateCspPure c a ctx hr now).total_accepts = c.total_accepts ∧
      (updateCspPure c a ctx hr now).total_overrides = c.total_overrides) := by
  have htd := updateCspPure_total_decisions c a ctx hr now
  rcases hv with h | h | h <;> subst h
  · obtain ⟨ha1, ha2, ha3⟩ := updateCspPure_accept_counters c ctx hr now
    refine ⟨?_, htd, fun _ => ⟨ha1, ha2, ha3⟩, ?_, ?_⟩
    · intro hsum
      rw [htd, ha1, ha2, ha3]
      omega
    · intro habs
      exact absurd habs (by decide)
    · intro habs
      exact absurd habs (by decide)
  · obtain ⟨ho1, ho2, ho3⟩ := updateCspPure_override_counters c ctx hr now
    refine ⟨?_, htd, ?_, fun _ => ⟨ho1, ho2, ho3⟩, ?_⟩
    · intro hsum
      rw [htd, ho1, ho2, ho3]
      omega
    · intro habs
      exact absurd habs (by decide)
    · intro habs
      exact absurd habs (by decide)
  · obtain ⟨hi1, hi2, hi3⟩ := updateCspPure_ignore_counters c ctx hr now
    refine ⟨?_, htd, ?_, ?_, fun _ => ⟨hi1, hi2, hi3⟩⟩
    · intro hsum
      rw [htd, hi1, hi2, hi3]
      omega
    · intro habs
      exact absurd habs (by decide)
    · intro habs
      exact absurd habs (by decide)

/-- C3 witness: an accept on the default vector. -/
theorem C3_counter_sum_invariant_and_increments_witness :
    ("accept" = "accept" ∨ "accept" = "override" ∨ "accept" = "ignore") ∧
    (updateCspPure getDefaultCsp "accept" emptyFeedbackContext 9 "t").total_decisions =
      getDefaultCsp.total_decisions + 1 :=
  ⟨Or.inl rfl,
   (C3_counter_sum_invariant_and_increments getDefaultCsp "accept"
     emptyFeedbackContext 9 "t" (Or.inl rfl)).2.1⟩

/-- C10. An accept or an override update leaves `consecutive_ignores`
unchanged, an ignore update leaves `consecutive_accepts` and
`consecutive_overrides` unchanged, and consequently the
`needs_recalibration` flag is set whenever the cumulative ignore streak
counter reaches 5; the sequence part holds for arbitrary interleavings of
other actions in between. -/
theorem C10_ignore_streak_frame_and_recalibration :
    (∀ (c : Csp) (ctx : FeedbackContext) (hr : ℕ) (now : String),
       (updateCspPure c "accept" ctx hr now).consecutive_ignores = c.consecutive_ignores ∧
       (updateCspPure c "override" ctx hr now).consecutive_ignores = c.consecutive_ignores) ∧
    (∀ (c : Csp) (ctx : FeedbackContext) (hr : ℕ) (now : String),
       (updateCspPure c "ignore" ctx hr now).consecutive_accepts = c.consecutive_accepts ∧
       (updateCspPure c "ignore" ctx hr now).consecutive_overrides = c.consecutive_overrides) ∧
    (∀ (c : Csp) (evs : List FeedbackEv),
       1 ≤ countIgnores evs → 5 ≤ c.consecutive_ignores + countIgnores evs →
       (applyFeedbackSeq c evs).needs_recalibration = true) := by
  refine ⟨?_, ?_, ?_⟩
  · intro c ctx hr now
    constructor
    · rw [updateCspPure_consecutive_ignores, if_neg (by decide)]
      omega
    · rw [updateCspPure_consecutive_ignores, if_neg (by decide)]
      omega
  · intro c ctx hr now
    exact updateCspPure_ignore_streaks c ctx hr now
  · intro c evs h1 h5
    exact applyFeedbackSeq_recalibration evs c h1 h5

/-- C10 witness: five ignores interleaved with accepts and overrides on the
default vector set the recalibration flag. -/
theorem C10_ignore_streak_frame_and_recalibration_witness :
    1 ≤ countIgnores c10Events ∧
    5 ≤ getDefaultCsp.consecutive_ignores + countIgnores c10Events ∧
    (applyFeedbackSeq getDefaultCsp c10Events).needs_recalibration = true :=
  ⟨by decide, by decide,
   C10_ignore_streak_frame_and_recalibration.2.2 getDefaultCsp c10Events
     (by decide) (by decide)⟩

end CspLearning

namespace DecisionEngine

attribute [local semireducible] Rat.mul Rat.inv Rat.add Rat.sub in
/-- C4 counterexample. At suggestion confidence exactly 0 the claimed +10
low-confidence bonus is NOT added: the JS read `suggestion_confidence || 0.5`
treats the stored 0 as falsy and substitutes the default 0.5, which is not
below 0.3, so no bonus applies even though the item has a preferred time. -/
theorem C4_zero_confidence_counterexample :
    cspZeroConfidence.suggestion_confidence = 0 ∧
    (0 : ℚ) ≤ cspZeroConfidence.suggestion_confidence ∧
    cspZeroConfidence.suggestion_confidence < 3/10 ∧
    stretchItem.preferred_time.isSome = true ∧
    confidenceAdjustment cspZeroConfidence stretchItem ≠ 10 := by
  refine ⟨rfl, by decide, by decide, rfl, ?_⟩
  unfold confidenceAdjustment cspZeroConfidence getDefaultCsp jsOr
  decide

/-- C4 amended. The +10 low-confidence bonus applies to every stored
suggestion confidence strictly between 0 and 0.3 when the item has an
explicit preferred time; at exactly 0 the JS falsy-default replaces the
value by 0.5 and no bonus is added (see the counterexample). -/
theorem C4_low_confidence_bonus_amended (csp : Csp) (d : Decision)
    (h0 : 0 < csp.suggestion_confidence)
    (h3 : csp.suggestion_confidence < 3/10)
    (hp : d.preferred_time.isSome = true) :
    confidenceAdjustment csp d = 10 := by
  unfold confidenceAdjustment jsOr
  rw [if_neg (ne_of_gt h0), if_pos h3, if_pos hp]

attribute [local semireducible] Rat.mul Rat.inv Rat.add Rat.sub in
/-- C4 witness: stored confidence 0.2 with a preferred time earns the +10. -/
theorem C4_low_confidence_bonus_witness :
    0 < cspLowConfidence.suggestion_confidence ∧
    cspLowConfidence.suggestion_confidence < 3/10 ∧
    stretchItem.preferred_time.isSome = true ∧
    confidenceAdjustment cspLowConfidence stretchItem = 10 :=
  ⟨by decide, by decide, rfl,
   C4_low_confidence_bonus_amended cspLowConfidence stretchItem
     (by decide) (by decide) rfl⟩

attribute [local semireducible] Rat.mul Rat.inv Rat.add Rat.sub in
/-- C6. Scoring a plain task at hour 8 against a vector with morning weight
0.8 yields 50 + 0.8*30 + 10 = 84, and in general any morning-band hour with
a stored morning weight above 0.6 contributes exactly weight*30 plus the
flat +10 bonus. -/
theorem C6_morning_weight_bonus :
    scoreDecision reportItem cspMorning 8 [] = 84 ∧
    ∀ (d : Decision) (csp : Csp) (h : ℕ), 6 ≤ h → h < 12 →
      3/5 < csp.morning_task_weight →
      timeComponent d csp h = csp.morning_task_weight * 30 + 10 := by
  constructor
  · decide
  · intro d csp h h6 h12 hw
    unfold timeComponent
    rw [if_pos ⟨h6, h12⟩]
    dsimp only
    unfold jsOr
    have hne : csp.morning_task_weight ≠ 0 :=
      ne_of_gt (lt_trans (by norm_num) hw)
    rw [if_neg hne, if_pos hw]

attribute [local semireducible] Rat.mul Rat.inv Rat.add Rat.sub in
/-- C6 witness: the general morning bonus applied at the concrete morning
vector and hour 8. -/
theorem C6_morning_weight_bonus_witness :
    (6 ≤ 8 ∧ 8 < 12 ∧ (3/5 : ℚ) < cspMorning.morning_task_weight) ∧
    timeComponent reportItem cspMorning 8 = cspMorning.morning_task_weight * 30 + 10 :=
  ⟨⟨by decide, by decide, by decide⟩,
   C6_morning_weight_bonus.2 reportItem cspMorning 8 (by decide) (by decide) (by decide)⟩

/-- C9. Generating a plan when the user has zero active candidate items
(the decisions read resolves to an empty list, or to null) returns the
early-exit result: an empty card list together with the fixed non-empty
explanatory message, wrapped in `.ok` — no exception is raised. -/
theorem C9_empty_candidates_plan :
    (∀ (loadData : CognitiveLoad.CognitiveLoadResult) (profileOpt : Option Profile)
       (fbRes : Except String (Option (List Feedback))) (day hour : ℕ),
       generateDailyPlan loadData (.ok profileOpt) (.ok (some [])) fbRes day hour =
         .ok (noActivePlan loadData) ∧
       generateDailyPlan loadData (.ok profileOpt) (.ok none) fbRes day hour =
         .ok (noActivePlan loadData)) ∧
    (∀ loadData : CognitiveLoad.CognitiveLoadResult,
       (noActivePlan loadData).cards = [] ∧
       (noActivePlan loadData).message = some noActiveMessage) ∧
    noActiveMessage ≠ "" := by
  refine ⟨?_, fun loadData => ⟨rfl, rfl⟩, by decide⟩
  intro loadData profileOpt fbRes day hour
  exact ⟨rfl, rfl⟩

end DecisionEngine

namespace FeedbackRoute

/-- C8 evidence (code bug). A store failure during a feedback update does
NOT propagate to the caller: `updateCspFromFeedback` returns undefined
(`none`) when the profile fetch fails or when the vector write fails; the
route helper `updateCspCounters` likewise returns silently; and the POST
/feedback handler still responds 201 with `csp_updated: true` when the
profile fetch inside the counter update fails — contradicting the claim
that the failure propagates as a distinct error. -/
theorem C8_store_failure_swallowed :
    (∀ (e : String) (a : String) (ctx : CspLearning.FeedbackContext) (hr : ℕ)
       (now : String) (w : Except String Unit),
       CspLearning.updateCspFromFeedback (.error e) a ctx hr now w = none) ∧
    (∀ (cspOpt : Option Csp) (a : String) (ctx : CspLearning.FeedbackContext)
       (hr : ℕ) (now : String) (e : String),
       CspLearning.updateCspFromFeedback (.ok (some cspOpt)) a ctx hr now (.error e) = none) ∧
    (∀ (e : String) (a : String) (w : Except String Unit),
       updateCspCounters (.error e) a w = none) ∧
    (∀ (e : String) (w : Except String Unit),
       feedbackPost (some "plan-1") (some "card") (some "accept") (.ok ())
         (.error e) w = { status := 201, csp_updated := true }) :=
  ⟨fun e a ctx hr now w => rfl,
   fun cspOpt a ctx hr now e => rfl,
   fun e a w => rfl,
   fun e w => rfl⟩

end FeedbackRoute
